import Mathlib

/-!
Shallow embedding of the quality-check engine of the OMOP Quality Dashboard
(src/app/quality_checks/base_checker.py, completeness.py, temporal.py,
concept_mapping.py, referential.py, __init__.py and src/app/database/connection.py).

Conventions of the embedding:
* pandas DataFrames are lists of rows, a row being an association list from
  column name to a cell value (integer, rational or string);
* a Python exception is `Except.error msg`; code protected by `try/except`
  matches on the `Except` value;
* the checkers interact with the database object through the record `DB`
  (`execute_query`, `table_exists`, `test_connection`);
* every check function additionally returns the list of query strings it
  passed to `execute_query`, in order, so that "issues zero queries" is a
  statement about that list;
* SQL text that contains quote characters is represented by a short opaque
  tag string (the engine never inspects query text, it only passes it to the
  database port, so only the identity of each query string matters);
* Python `round(x, 2)` and `int(x)` are modelled on rationals; the claims
  never depend on rounding detail.
-/

/-- The four-valued status enumeration used by every check
(the string constants PASS, WARNING, FAIL, ERROR in the source). -/
inductive Status
  | PASS
  | WARNING
  | FAIL
  | ERROR
  deriving DecidableEq, Repr

/-- Goodness rank of a status for the monotonicity property:
PASS is better than WARNING, which is better than FAIL. -/
def statusRank : Status → Nat
  | .PASS => 2
  | .WARNING => 1
  | .FAIL => 0
  | .ERROR => 0

/-- A cell of a query result set: an integer, a rational number
(SQL numerics and percentages) or a string. -/
inductive Val
  | vInt (n : Int)
  | vRat (q : ℚ)
  | vStr (s : String)
  deriving DecidableEq, Repr

/-- Reading a cell as a number; comparing a string cell with a number
raises in Python, which the embedding reports as an error. -/
def Val.toNum : Val → Except String ℚ
  | .vInt n => .ok (n : ℚ)
  | .vRat q => .ok q
  | .vStr _ => .error "TypeError: a str cell is not a number"

/-- A row of a query result set (a pandas Series keyed by column name). -/
abbrev Row := List (String × Val)

/-- A query result set (a pandas DataFrame as a list of rows). -/
abbrev Frame := List Row

/-- Reading the cell of a row at a column; a missing column raises KeyError. -/
def Row.cell (r : Row) (c : String) : Except String Val :=
  match r.lookup c with
  | some v => .ok v
  | none => .error ("KeyError: " ++ c)

/-- Reading the cell of a row at a column as a number. -/
def Row.num (r : Row) (c : String) : Except String ℚ :=
  (r.cell c).bind Val.toNum

/-- Reading `frame[c].iloc[0]`: the first row's cell at column `c`. -/
def Frame.cell0 (f : Frame) (c : String) : Except String Val :=
  match f with
  | [] => .error "single positional indexer is out-of-bounds"
  | r :: _ => r.cell c

/-- Reading `frame[c].iloc[0]` as a number. -/
def Frame.num0 (f : Frame) (c : String) : Except String ℚ :=
  (f.cell0 c).bind Val.toNum

/-- Reading a whole column as numbers (element-wise, as pandas does when a
column is compared with a number). -/
def colNums (c : String) : Frame → Except String (List ℚ)
  | [] => .ok []
  | r :: rs => do
    let v ← r.num c
    let vs ← colNums c rs
    pure (v :: vs)

/-- Filtering `frame[frame[c] > 0]`: keep the rows whose cell at `c` is a
number greater than zero; a non-numeric cell raises. -/
def filterGt (c : String) : Frame → Except String Frame
  | [] => .ok []
  | r :: rs => do
      let v ← r.num c
      let rest ← filterGt c rs
      if 0 < v then pure (r :: rest) else pure rest

/-- Python `int(x)` on a numeric value (truncation toward zero). -/
def pyInt (q : ℚ) : Int :=
  if 0 ≤ q then q.floor else q.ceil

/-- Python `round(x, 2)` on a numeric value (modelled as rounding half up;
the claims never depend on the rounding mode). -/
def round2 (q : ℚ) : ℚ :=
  ((q * 100 + 1 / 2).floor : ℚ) / 100

/-- The checker-side view of the database object (an `OMOPDatabase` or a
test double): `execute_query` may raise, `table_exists` and
`test_connection` return booleans. -/
structure DB where
  executeQuery : String → Except String Frame
  tableExists : String → Bool
  testConnection : Bool

/-- A record stored inside a check result's `data` field. Some of these
sub-records carry their own `status` (and possibly `error`) key, some are
plain data rows; `fields` holds the remaining keys. -/
structure SubRec where
  fields : List (String × Val)
  status : Option Status
  error : Option String
  deriving DecidableEq, Repr

/-- The result dict produced by one named check: a status, an optional
human message, the `data` rows, the remaining numeric or string entries of
the dict (`metrics`), and the optional `error` detail. -/
structure CheckResult where
  status : Status
  message : Option String
  data : List SubRec
  metrics : List (String × Val)
  error : Option String
  deriving DecidableEq, Repr

/-- Invariant of a check result: an `error` entry forces status ERROR, and
status PASS forces no `error` entry. -/
def ResultInv (r : CheckResult) : Prop :=
  (r.error ≠ none → r.status = .ERROR) ∧ (r.status = .PASS → r.error = none)

/-- Invariant of a sub-record: an `error` entry forces its own status to be
ERROR, and a PASS status forces no `error` entry. -/
def SubInv (s : SubRec) : Prop :=
  (s.error ≠ none → s.status = some .ERROR) ∧
  (s.status = some .PASS → s.error = none)

/-- Invariant of a full check result including the sub-records it carries. -/
def CheckInv (r : CheckResult) : Prop :=
  ResultInv r ∧ ∀ s ∈ r.data, SubInv s

/-- Counting the results whose status equals `s`
(the generator sums in `BaseQualityChecker.get_summary`). -/
def countStatus (results : List (String × CheckResult)) (s : Status) : Nat :=
  results.countP (fun p => p.2.status == s)

/-- `BaseQualityChecker.get_summary` (base_checker.py lines 20-27): the
summary dict computed from the `results` map, with its four keys. -/
def getSummary (results : List (String × CheckResult)) : List (String × Nat) :=
  [("total_checks", results.length),
   ("passed_checks", countStatus results .PASS),
   ("failed_checks", countStatus results .FAIL),
   ("warning_checks", countStatus results .WARNING)]

/-- Replacing the `data` field of a check result, leaving everything else
unchanged (used to state that the summary ignores `data`). -/
def setData (r : CheckResult) (d : List SubRec) : CheckResult :=
  { r with data := d }

/-- The five registered checker categories. -/
inductive CheckerKind
  | completeness
  | temporal
  | conceptMapping
  | referential
  | statistical
  deriving DecidableEq, Repr

/-- The registry dict `QUALITY_CHECKERS` of src/app/quality_checks/__init__.py. -/
def QUALITY_CHECKERS : List (String × CheckerKind) :=
  [("completeness", .completeness),
   ("temporal", .temporal),
   ("concept_mapping", .conceptMapping),
   ("referential", .referential),
   ("statistical", .statistical)]

/-- A constructed checker instance: its category bound to a database. -/
structure CheckerInstance where
  kind : CheckerKind
  database : DB

/-- `get_quality_checker` (src/app/quality_checks/__init__.py lines 31-36):
looks the name up in the registry and constructs the checker, or raises
ValueError for an unknown name. -/
def getQualityChecker (checkerName : String) (database : DB) :
    Except String CheckerInstance :=
  match QUALITY_CHECKERS.lookup checkerName with
  | some k => .ok ⟨k, database⟩
  | none => .error ("Unknown quality checker: " ++ checkerName)

/-- Modelled from the spec: `BaseQualityChecker.table_exists` is called by
the checkers but is not defined in src/app/quality_checks/base_checker.py
(the tests mock it); per spec section 4.1 it delegates to the Data Source
Port's `table_exists`. -/
def tableExists (db : DB) (name : String) : Bool :=
  db.tableExists name

/-- Modelled from the spec: `BaseQualityChecker.validate_database_connection`
is called by the checkers but is not defined in src; per spec section 4.1
it delegates to the Data Source Port's connectivity probe. -/
def validateDatabaseConnection (db : DB) : Bool :=
  db.testConnection

/-- Modelled from the spec: `BaseQualityChecker.handle_error` is called by
the referential and statistical checkers but is not defined in src; per
spec section 4.1 (error wrapping) it converts a caught failure into a
result with status ERROR and `error` populated with the failure detail. -/
def handleError (checkName : String) (e : String) : CheckResult :=
  { status := .ERROR
    message := some ("Error in check " ++ checkName)
    data := []
    metrics := []
    error := some e }

/-- Tag standing for the SQL text of `OMOPQueries.get_table_row_counts`
(database/queries.py); the engine only passes query text to the port. -/
def getTableRowCountsQuery : String := "OMOPQueries.get_table_row_counts"

/-- Tag standing for the SQL text built by
`OMOPQueries.get_completeness_check(table_name, fields)`. -/
def getCompletenessCheckQuery (tableName : String) (fields : List String) : String :=
  "OMOPQueries.get_completeness_check " ++ tableName ++ " " ++
    String.intercalate "," fields

/-- Tag standing for the SQL text of
`OMOPQueries.get_person_demographics_quality`. -/
def getPersonDemographicsQualityQuery : String :=
  "OMOPQueries.get_person_demographics_quality"

/-- The `table_key_fields` dict of
`CompletenessChecker._check_table_completeness` (completeness.py 45-54). -/
def tableKeyFields : List (String × List String) :=
  [("person", ["person_id", "gender_concept_id", "year_of_birth"]),
   ("condition_occurrence",
      ["person_id", "condition_concept_id", "condition_start_date"]),
   ("drug_exposure", ["person_id", "drug_concept_id", "drug_exposure_start_date"]),
   ("procedure_occurrence", ["person_id", "procedure_concept_id", "procedure_date"]),
   ("measurement", ["person_id", "measurement_concept_id", "measurement_date"]),
   ("visit_occurrence", ["person_id", "visit_concept_id", "visit_start_date"]),
   ("observation", ["person_id", "observation_concept_id", "observation_date"]),
   ("death", ["person_id", "death_date"])]

/-- The per-table status rule of `_check_table_completeness`
(completeness.py 72-78): zero nulls PASS, below five percent WARNING,
otherwise FAIL. -/
def classifyNullPercentage (p : ℚ) : Status :=
  if p = 0 then .PASS else if p < 5 then .WARNING else .FAIL

/-- Definition following the words of the claim, for comparison with
`classifyNullPercentage`: strictly below the warning cutoff PASS, below the
fail cutoff WARNING, otherwise FAIL. -/
def claimedThresholdClassify (w f p : ℚ) : Status :=
  if p < w then .PASS else if p < f then .WARNING else .FAIL

/-- One iteration of the table loop of `_check_table_completeness`
(completeness.py 56-94): reads `table_name` and `row_count` (a failure
there escapes to the outer handler), and runs the per-table null query
inside its own handler. Returns the produced sub-record, if any, and the
issued queries. -/
def tcStep (db : DB) (row : Row) : Except String (Option SubRec) × List String :=
  match row.cell "table_name" with
  | .error e => (.error e, [])
  | .ok tnVal =>
    match row.cell "row_count" with
    | .error e => (.error e, [])
    | .ok trVal =>
      match trVal.toNum with
      | .error e => (.error e, [])
      | .ok totalRows =>
        if 0 < totalRows then
          match tnVal with
          | .vStr tn =>
            match tableKeyFields.lookup tn with
            | some fields =>
              match db.executeQuery (getCompletenessCheckQuery tn fields) with
              | .error e =>
                (.ok (some ⟨[("table_name", tnVal), ("total_rows", trVal),
                             ("null_percentage", .vStr "ERROR")],
                            some .ERROR, some e⟩), [getCompletenessCheckQuery tn fields])
              | .ok nullResults =>
                if nullResults.isEmpty then (.ok none, [getCompletenessCheckQuery tn fields])
                else
                  match nullResults.num0 "null_percentage" with
                  | .error e =>
                    (.ok (some ⟨[("table_name", tnVal), ("total_rows", trVal),
                                 ("null_percentage", .vStr "ERROR")],
                                some .ERROR, some e⟩), [getCompletenessCheckQuery tn fields])
                  | .ok np =>
                    (.ok (some ⟨[("table_name", tnVal), ("total_rows", trVal),
                                 ("null_percentage", .vRat np),
                                 ("key_fields",
                                    .vStr (String.intercalate ", " fields))],
                                some (classifyNullPercentage np), none⟩), [getCompletenessCheckQuery tn fields])
            | none => (.ok none, [])
          | _ => (.ok none, [])
        else (.ok none, [])

/-- The table loop of `_check_table_completeness`, collecting sub-records
and issued queries; an escaping failure aborts the loop. -/
def tcLoop (db : DB) : List Row → Except String (List SubRec) × List String
  | [] => (.ok [], [])
  | row :: rest =>
    match tcStep db row with
    | (.error e, lg) => (.error e, lg)
    | (.ok os, lg) =>
      match tcLoop db rest with
      | (.ok subs, lg2) =>
        (.ok (match os with | some s => s :: subs | none => subs), lg ++ lg2)
      | (.error e, lg2) => (.error e, lg ++ lg2)

/-- The overall-status rule of `_check_table_completeness`
(completeness.py 96-104). -/
def tableCompletenessStatus (subs : List SubRec) : Status :=
  if subs.isEmpty then .WARNING
  else if subs.all (fun s => s.status == some Status.PASS) then .PASS
  else if subs.any (fun s => s.status == some Status.FAIL) then .FAIL
  else .WARNING

/-- `CompletenessChecker._check_table_completeness` (completeness.py 28-117). -/
def checkTableCompleteness (db : DB) : CheckResult × List String :=
  match db.executeQuery getTableRowCountsQuery with
  | .error e =>
    ({ status := .ERROR, message := some "Failed to check table completeness",
       data := [], metrics := [], error := some e }, [getTableRowCountsQuery])
  | .ok tablesDf =>
    if tablesDf.isEmpty then
      ({ status := .ERROR, message := some "No table data found",
         data := [], metrics := [], error := none }, [getTableRowCountsQuery])
    else
      match tcLoop db tablesDf with
      | (.error e, lg) =>
        ({ status := .ERROR, message := some "Failed to check table completeness",
           data := [], metrics := [], error := some e },
         getTableRowCountsQuery :: lg)
      | (.ok subs, lg) =>
        ({ status := tableCompletenessStatus subs,
           message := some ("Checked completeness for " ++
             toString subs.length ++ " tables"),
           data := subs, metrics := [], error := none },
         getTableRowCountsQuery :: lg)

/-- One entry of the `critical_checks` list of `_check_critical_fields`. -/
structure CriticalCheck where
  name : String
  query : String
  threshold : ℚ
  deriving DecidableEq, Repr

/-- The five fixed critical-field checks of
`CompletenessChecker._check_critical_fields` (completeness.py 121-147). -/
def criticalChecks : List CriticalCheck :=
  [⟨"Person IDs in condition_occurrence",
    "SELECT COUNT(*) as null_count FROM condition_occurrence WHERE person_id IS NULL", 0⟩,
   ⟨"Concept IDs in condition_occurrence",
    "SELECT COUNT(*) as null_count FROM condition_occurrence WHERE condition_concept_id IS NULL", 0⟩,
   ⟨"Start dates in drug_exposure",
    "SELECT COUNT(*) as null_count FROM drug_exposure WHERE drug_exposure_start_date IS NULL", 0⟩,
   ⟨"Person IDs in visit_occurrence",
    "SELECT COUNT(*) as null_count FROM visit_occurrence WHERE person_id IS NULL", 0⟩,
   ⟨"Visit concept IDs in visit_occurrence",
    "SELECT COUNT(*) as null_count FROM visit_occurrence WHERE visit_concept_id IS NULL", 0⟩]

/-- One iteration of the loop of `_check_critical_fields`
(completeness.py 152-175): note that the query is issued with no
table-existence guard. Returns the sub-record (if any), the contribution
to `total_failures`, and the issued query. -/
def cfStep (db : DB) (c : CriticalCheck) : Option SubRec × ℚ × List String :=
  match db.executeQuery c.query with
  | .error e =>
    (some ⟨[("check_name", .vStr c.name), ("null_count", .vStr "ERROR"),
            ("threshold", .vRat c.threshold)], some .ERROR, some e⟩,
     0, [c.query])
  | .ok result =>
    if result.isEmpty then (none, 0, [c.query])
    else
      match result.num0 "null_count" with
      | .error e =>
        (some ⟨[("check_name", .vStr c.name), ("null_count", .vStr "ERROR"),
                ("threshold", .vRat c.threshold)], some .ERROR, some e⟩,
         0, [c.query])
      | .ok nc =>
        let st := if nc ≤ c.threshold then Status.PASS else Status.FAIL
        (some ⟨[("check_name", .vStr c.name), ("null_count", .vRat nc),
                ("threshold", .vRat c.threshold)], some st, none⟩,
         if st = .FAIL then nc else 0, [c.query])

/-- The shared shape of the source's per-item check loops: each iteration
may append one sub-record, contributes to a running numeric total, and
issues some queries; the loop concatenates all three. -/
def stepLoop {α : Type} (step : α → Option SubRec × ℚ × List String) :
    List α → List SubRec × ℚ × List String
  | [] => ([], 0, [])
  | c :: cs =>
    let (os, t, lg) := step c
    let (subs, t2, lg2) := stepLoop step cs
    ((match os with | some s => s :: subs | none => subs), t + t2, lg ++ lg2)

/-- The loop of `_check_critical_fields` over the five fixed checks. -/
def cfLoop (db : DB) : List CriticalCheck → List SubRec × ℚ × List String :=
  stepLoop (cfStep db)

/-- `CompletenessChecker._check_critical_fields` (completeness.py 119-184). -/
def checkCriticalFields (db : DB) : CheckResult × List String :=
  let (subs, totalFailures, lg) := cfLoop db criticalChecks
  ({ status := if totalFailures = 0 then .PASS else .FAIL,
     message := some ("Found " ++ toString totalFailures ++
       " critical field violations"),
     data := subs,
     metrics := [("total_failures", .vRat totalFailures)],
     error := none }, lg)

/-- The body of `CompletenessChecker._check_person_completeness`
(completeness.py 186-245), inside its handler; a raised failure is the
`Except.error` outcome. -/
def personCompletenessBody (db : DB) : Except String CheckResult × List String :=
  match db.executeQuery getPersonDemographicsQualityQuery with
  | .error e => (.error e, [getPersonDemographicsQualityQuery])
  | .ok result =>
    match result with
    | [] =>
      (.ok { status := .ERROR, message := some "No person data found",
             data := [], metrics := [], error := none },
       [getPersonDemographicsQualityQuery])
    | row :: _ =>
      ((do
        let tpVal ← row.cell "total_persons"
        if tpVal = Val.vInt 0 ∨ tpVal = Val.vRat 0 then
          pure { status := .ERROR, message := some "No persons in person table",
                 data := [], metrics := [], error := none }
        else do
          let cs ← ((row.lookup "completeness_score").getD (Val.vInt 0)).toNum
          let tp ← tpVal.toNum
          let mg ← row.num "missing_gender"
          let mby ← row.num "missing_birth_year"
          let mr ← row.num "missing_race"
          let met ← row.num "missing_ethnicity"
          let genderCompleteness := 100 - mg * 100 / tp
          let birthYearCompleteness := 100 - mby * 100 / tp
          let raceCompleteness := 100 - mr * 100 / tp
          let ethnicityCompleteness := 100 - met * 100 / tp
          let ibl ← row.num "invalid_birth_year_low"
          let ibh ← row.num "invalid_birth_year_high"
          let ua ← row.num "unrealistic_age"
          let qualityIssues :=
            (if 0 < ibl then
              [toString (pyInt ibl) ++ " persons with birth year < 1900"] else []) ++
            (if 0 < ibh then
              [toString (pyInt ibh) ++ " persons with future birth year"] else []) ++
            (if 0 < ua then
              [toString (pyInt ua) ++ " persons with age > 120"] else [])
          let st :=
            if 95 ≤ cs ∧ qualityIssues.length = 0 then Status.PASS
            else if 85 ≤ cs then Status.WARNING
            else Status.FAIL
          pure { status := st,
                 message := some ("Person table completeness: " ++ toString cs),
                 data := [⟨row, none, none⟩],
                 metrics :=
                   [("completeness_score", .vRat (round2 cs)),
                    ("field_completeness.gender", .vRat (round2 genderCompleteness)),
                    ("field_completeness.birth_year",
                       .vRat (round2 birthYearCompleteness)),
                    ("field_completeness.race", .vRat (round2 raceCompleteness)),
                    ("field_completeness.ethnicity",
                       .vRat (round2 ethnicityCompleteness)),
                    ("quality_issues",
                       .vStr (String.intercalate "; " qualityIssues))],
                 error := none }),
       [getPersonDemographicsQualityQuery])

/-- `CompletenessChecker._check_person_completeness` (completeness.py
186-252): the body wrapped in its exception handler. -/
def checkPersonCompleteness (db : DB) : CheckResult × List String :=
  match personCompletenessBody db with
  | (.ok r, lg) => (r, lg)
  | (.error e, lg) =>
    ({ status := .ERROR,
       message := some "Failed to check person table completeness",
       data := [], metrics := [], error := some e }, lg)

/-- Tag standing for the SQL text of the conditions query of
`_check_domain_completeness` (completeness.py 258-265). -/
def domainConditionsQuery : String := "domain_completeness.conditions_query"

/-- Tag standing for the SQL text of the drugs query of
`_check_domain_completeness` (completeness.py 268-276). -/
def domainDrugsQuery : String := "domain_completeness.drugs_query"

/-- The per-domain status rule of `_check_domain_completeness`
(completeness.py 297 and 323). -/
def classifyDomainScore (cs : ℚ) : Status :=
  if 80 ≤ cs then .PASS else if 60 ≤ cs then .WARNING else .FAIL

/-- One per-domain block of `_check_domain_completeness`
(completeness.py 281-330), inside its own handler. -/
def domainStep (db : DB) (domain : String) (q : String) (totalCol : String) :
    Option SubRec × List String :=
  match db.executeQuery q with
  | .error e => (some ⟨[("domain", .vStr domain)], some .ERROR, some e⟩, [q])
  | .ok result =>
    match result with
    | [] => (none, [q])
    | row :: _ =>
      match row.num totalCol with
      | .error e => (some ⟨[("domain", .vStr domain)], some .ERROR, some e⟩, [q])
      | .ok total =>
        if 0 < total then
          match row.num "missing_source_value" with
          | .error e =>
            (some ⟨[("domain", .vStr domain)], some .ERROR, some e⟩, [q])
          | .ok msv =>
            match row.num "missing_type_concept" with
            | .error e =>
              (some ⟨[("domain", .vStr domain)], some .ERROR, some e⟩, [q])
            | .ok mtc =>
              let cs := 100 - ((msv + mtc) * 100 / total / 2)
              (some ⟨[("domain", .vStr domain), ("total_records", .vRat total),
                      ("completeness_score", .vRat (round2 cs))],
                     some (classifyDomainScore cs), none⟩, [q])
        else (none, [q])

/-- The overall-status rule of `_check_domain_completeness`
(completeness.py 332-340): note that the all-PASS test skips ERROR
sub-records. -/
def domainOverallStatus (subs : List SubRec) : Status :=
  if subs.isEmpty then .ERROR
  else if (subs.filter (fun s => !(s.status == some Status.ERROR))).all
      (fun s => s.status == some Status.PASS) then .PASS
  else if subs.any (fun s => s.status == some Status.FAIL) then .FAIL
  else .WARNING

/-- `CompletenessChecker._check_domain_completeness` (completeness.py
254-353); every failing operation is inside one of the two per-domain
handlers, so the outer handler of the source never fires. -/
def checkDomainCompleteness (db : DB) : CheckResult × List String :=
  let (o1, lg1) := domainStep db "Condition" domainConditionsQuery "total_conditions"
  let (o2, lg2) := domainStep db "Drug" domainDrugsQuery "total_drugs"
  let subs := o1.toList ++ o2.toList
  ({ status := domainOverallStatus subs,
     message := some ("Checked completeness for " ++ toString subs.length ++
       " clinical domains"),
     data := subs, metrics := [], error := none }, lg1 ++ lg2)

/-- `CompletenessChecker.run_checks` (completeness.py 10-26): the four
named completeness checks, in order. -/
def runChecksCompleteness (db : DB) :
    List (String × CheckResult) × List String :=
  let (r1, l1) := checkTableCompleteness db
  let (r2, l2) := checkCriticalFields db
  let (r3, l3) := checkPersonCompleteness db
  let (r4, l4) := checkDomainCompleteness db
  ([("table_completeness", r1), ("critical_fields", r2),
    ("person_completeness", r3), ("domain_completeness", r4)],
   l1 ++ l2 ++ l3 ++ l4)

/-- Tag standing for the SQL text of `OMOPQueries.get_future_dates_check`. -/
def getFutureDatesCheckQuery : String := "OMOPQueries.get_future_dates_check"

/-- Building the `check_results` sub-records of `_check_future_dates`
(temporal.py 59-67) from the filtered rows. -/
def futureSubs : Frame → Except String (List SubRec)
  | [] => .ok []
  | row :: rest => do
    let tn ← row.cell "table_name"
    let df ← row.cell "date_field"
    let fc ← row.num "future_count"
    let others ← futureSubs rest
    pure (⟨[("table", tn), ("date_field", df), ("future_count", .vRat fc)],
           some (if 0 < fc then Status.FAIL else Status.PASS), none⟩ :: others)

/-- Summing the `future_count` column of the filtered rows
(`future_data['future_count'].sum()`). -/
def sumCol (c : String) : Frame → Except String ℚ
  | [] => .ok 0
  | row :: rest => do
    let v ← row.num c
    let s ← sumCol c rest
    pure (v + s)

/-- The body of `TemporalChecker._check_future_dates` (temporal.py 34-74),
inside its handler. -/
def futureDatesBody (db : DB) : Except String CheckResult × List String :=
  match db.executeQuery getFutureDatesCheckQuery with
  | .error e => (.error e, [getFutureDatesCheckQuery])
  | .ok result =>
    if result.isEmpty then
      (.ok { status := .PASS, message := some "No future dates found",
             data := [], metrics := [("total_future_dates", .vInt 0)],
             error := none }, [getFutureDatesCheckQuery])
    else
      ((do
        let futureData ← filterGt "future_count" result
        if futureData.isEmpty then
          pure { status := .PASS, message := some "No future dates found",
                 data := [], metrics := [("total_future_dates", .vInt 0)],
                 error := none }
        else do
          let total ← sumCol "future_count" futureData
          let subs ← futureSubs futureData
          pure { status := if 0 < total then .FAIL else .PASS,
                 message := some ("Found " ++ toString (pyInt total) ++
                   " future dates across all tables"),
                 data := subs,
                 metrics := [("total_future_dates", .vInt (pyInt total))],
                 error := none }),
       [getFutureDatesCheckQuery])

/-- `TemporalChecker._check_future_dates` (temporal.py 32-81): the body
wrapped in its exception handler. -/
def checkFutureDates (db : DB) : CheckResult × List String :=
  match futureDatesBody db with
  | (.ok r, lg) => (r, lg)
  | (.error e, lg) =>
    ({ status := .ERROR, message := some "Failed to check future dates",
       data := [], metrics := [], error := some e }, lg)

/-- The per-domain status rule of
`ConceptMappingChecker._check_unmapped_concepts` (concept_mapping.py 85). -/
def classifyUnmappedPercentage (p : ℚ) : Status :=
  if p < 5 then .PASS else if p < 15 then .WARNING else .FAIL

/-- One entry of the `unmapped_queries` list of `_check_unmapped_concepts`. -/
structure UnmappedQuery where
  domain : String
  table : String
  conceptField : String
  deriving DecidableEq, Repr

/-- The four domain entries of `_check_unmapped_concepts`
(concept_mapping.py 29-54). -/
def unmappedQueries : List UnmappedQuery :=
  [⟨"Condition", "condition_occurrence", "condition_concept_id"⟩,
   ⟨"Drug", "drug_exposure", "drug_concept_id"⟩,
   ⟨"Procedure", "procedure_occurrence", "procedure_concept_id"⟩,
   ⟨"Measurement", "measurement", "measurement_concept_id"⟩]

/-- The SQL text built for one domain by `_check_unmapped_concepts`
(concept_mapping.py 61-71), represented by a tag naming its parameters. -/
def unmappedConceptsQuery (u : UnmappedQuery) : String :=
  "unmapped_concepts " ++ u.table ++ " " ++ u.conceptField

/-- One iteration of the loop of `_check_unmapped_concepts`
(concept_mapping.py 59-97), inside its own handler: returns the produced
sub-record (if any), the contribution to `total_unmapped`, and the issued
query. -/
def unmappedStep (db : DB) (u : UnmappedQuery) :
    Option SubRec × ℚ × List String :=
  match db.executeQuery (unmappedConceptsQuery u) with
  | .error e =>
    (some ⟨[("domain", .vStr u.domain), ("table", .vStr u.table),
            ("total_records", .vInt 0), ("unmapped_count", .vStr "ERROR"),
            ("unmapped_percentage", .vStr "ERROR")], some .ERROR, some e⟩,
     0, [unmappedConceptsQuery u])
  | .ok result =>
    match result with
    | [] => (none, 0, [unmappedConceptsQuery u])
    | row :: _ =>
      match row.num "unmapped_count" with
      | .error e =>
        (some ⟨[("domain", .vStr u.domain), ("table", .vStr u.table),
                ("total_records", .vInt 0), ("unmapped_count", .vStr "ERROR"),
                ("unmapped_percentage", .vStr "ERROR")], some .ERROR, some e⟩,
         0, [unmappedConceptsQuery u])
      | .ok uc =>
        match row.cell "total_records" with
        | .error e =>
          (some ⟨[("domain", .vStr u.domain), ("table", .vStr u.table),
                  ("total_records", .vInt 0), ("unmapped_count", .vStr "ERROR"),
                  ("unmapped_percentage", .vStr "ERROR")], some .ERROR, some e⟩,
           0, [unmappedConceptsQuery u])
        | .ok tr =>
          match row.num "unmapped_percentage" with
          | .error e =>
            (some ⟨[("domain", .vStr u.domain), ("table", .vStr u.table),
                    ("total_records", .vInt 0), ("unmapped_count", .vStr "ERROR"),
                    ("unmapped_percentage", .vStr "ERROR")], some .ERROR, some e⟩,
             0, [unmappedConceptsQuery u])
          | .ok up =>
            (some ⟨[("domain", .vStr u.domain), ("table", .vStr u.table),
                    ("total_records", tr), ("unmapped_count", .vRat uc),
                    ("unmapped_percentage", .vRat up)],
                   some (classifyUnmappedPercentage up), none⟩, uc, [unmappedConceptsQuery u])

/-- The loop of `_check_unmapped_concepts` over the four domains. -/
def unmappedLoop (db : DB) : List UnmappedQuery → List SubRec × ℚ × List String :=
  stepLoop (unmappedStep db)

/-- The overall-status rule of `_check_unmapped_concepts`
(concept_mapping.py 99-103). -/
def unmappedOverallStatus (subs : List SubRec) : Status :=
  if subs.any (fun s => s.status == some Status.FAIL) then .FAIL
  else if subs.any (fun s => s.status == some Status.WARNING) then .WARNING
  else .PASS

/-- `ConceptMappingChecker._check_unmapped_concepts`
(concept_mapping.py 27-110). -/
def checkUnmappedConcepts (db : DB) : CheckResult × List String :=
  let (subs, totalUnmapped, lg) := unmappedLoop db unmappedQueries
  ({ status := unmappedOverallStatus subs,
     message := some ("Found " ++ toString totalUnmapped ++
       " unmapped concepts across all domains"),
     data := subs,
     metrics := [("total_unmapped", .vRat totalUnmapped)],
     error := none }, lg)

/-- Tag standing for the SQL text of `OMOPQueries.get_foreign_key_violations`. -/
def getForeignKeyViolationsQuery : String :=
  "OMOPQueries.get_foreign_key_violations"

/-- Building the `violation_results` sub-records of
`_check_foreign_key_violations` (referential.py 99-106) from the filtered
rows. -/
def fkSubs : Frame → Except String (List SubRec)
  | [] => .ok []
  | row :: rest => do
    let rel ← row.cell "relationship"
    let vc ← row.num "violation_count"
    let others ← fkSubs rest
    pure (⟨[("relationship", rel), ("violations", .vInt (pyInt vc))],
           some (if 0 < vc then Status.FAIL else Status.PASS), none⟩ :: others)

/-- The body of `ReferentialIntegrityChecker._check_foreign_key_violations`
(referential.py 74-113), inside its handler. -/
def fkViolationsBody (db : DB) : Except String CheckResult × List String :=
  match db.executeQuery getForeignKeyViolationsQuery with
  | .error e => (.error e, [getForeignKeyViolationsQuery])
  | .ok result =>
    if result.isEmpty then
      (.ok { status := .PASS, message := some "No foreign key violations found",
             data := [], metrics := [("total_violations", .vInt 0)],
             error := none }, [getForeignKeyViolationsQuery])
    else
      ((do
        let violationsData ← filterGt "violation_count" result
        if violationsData.isEmpty then
          pure { status := .PASS,
                 message := some "No foreign key violations found",
                 data := [], metrics := [("total_violations", .vInt 0)],
                 error := none }
        else do
          let total ← sumCol "violation_count" violationsData
          let subs ← fkSubs violationsData
          pure { status := if 0 < total then .FAIL else .PASS,
                 message := some ("Found " ++ toString (pyInt total) ++
                   " foreign key violations"),
                 data := subs,
                 metrics := [("total_violations", .vInt (pyInt total))],
                 error := none }),
       [getForeignKeyViolationsQuery])

/-- `ReferentialIntegrityChecker._check_foreign_key_violations`
(referential.py 72-116): the body wrapped in its handler, which delegates
to `handle_error`. -/
def checkForeignKeyViolations (db : DB) : CheckResult × List String :=
  match fkViolationsBody db with
  | (.ok r, lg) => (r, lg)
  | (.error e, lg) => (handleError "foreign_key_violations" e, lg)

/-- One entry of the `orphan_checks` list of `_check_orphaned_records`. -/
structure OrphanCheck where
  name : String
  table : String
  query : String
  deriving DecidableEq, Repr

/-- The five orphan checks of `_check_orphaned_records`
(referential.py 120-184), with their SQL single-lined. -/
def orphanChecks : List OrphanCheck :=
  [⟨"Conditions without visits", "condition_occurrence",
    "SELECT COUNT(*) as orphan_count FROM condition_occurrence co WHERE co.visit_occurrence_id IS NOT NULL AND NOT EXISTS (SELECT 1 FROM visit_occurrence vo WHERE vo.visit_occurrence_id = co.visit_occurrence_id)"⟩,
   ⟨"Drugs without visits", "drug_exposure",
    "SELECT COUNT(*) as orphan_count FROM drug_exposure de WHERE de.visit_occurrence_id IS NOT NULL AND NOT EXISTS (SELECT 1 FROM visit_occurrence vo WHERE vo.visit_occurrence_id = de.visit_occurrence_id)"⟩,
   ⟨"Procedures without visits", "procedure_occurrence",
    "SELECT COUNT(*) as orphan_count FROM procedure_occurrence po WHERE po.visit_occurrence_id IS NOT NULL AND NOT EXISTS (SELECT 1 FROM visit_occurrence vo WHERE vo.visit_occurrence_id = po.visit_occurrence_id)"⟩,
   ⟨"Measurements without person", "measurement",
    "SELECT COUNT(*) as orphan_count FROM measurement m WHERE NOT EXISTS (SELECT 1 FROM person p WHERE p.person_id = m.person_id)"⟩,
   ⟨"Observations without person", "observation",
    "SELECT COUNT(*) as orphan_count FROM observation o WHERE NOT EXISTS (SELECT 1 FROM person p WHERE p.person_id = o.person_id)"⟩]

/-- The orphan-count status rule of `_check_orphaned_records`
(referential.py 200-206 and 223-229). -/
def classifyOrphanCount (c : ℚ) : Status :=
  if c = 0 then .PASS else if c < 100 then .WARNING else .FAIL

/-- One iteration of the loop of `_check_orphaned_records`
(referential.py 189-221): skipped entirely (no query) when the required
table is absent; a query failure is caught and becomes an ERROR
sub-record. Returns the sub-record (if any), the contribution to
`total_orphans`, and the issued queries. -/
def orphanStep (db : DB) (c : OrphanCheck) : Option SubRec × ℚ × List String :=
  if !(tableExists db c.table) then (none, 0, [])
  else
    match db.executeQuery c.query with
    | .error e =>
      (some ⟨[("check_name", .vStr c.name), ("orphan_count", .vStr "ERROR")],
             some .ERROR, some e⟩, 0, [c.query])
    | .ok result =>
      if result.isEmpty then (none, 0, [c.query])
      else
        match result.num0 "orphan_count" with
        | .error e =>
          (some ⟨[("check_name", .vStr c.name), ("orphan_count", .vStr "ERROR")],
                 some .ERROR, some e⟩, 0, [c.query])
        | .ok oc =>
          (some ⟨[("check_name", .vStr c.name),
                  ("orphan_count", .vInt (pyInt oc))],
                 some (classifyOrphanCount oc), none⟩, oc, [c.query])

/-- The loop of `_check_orphaned_records` over the five orphan checks. -/
def orphanLoop (db : DB) : List OrphanCheck → List SubRec × ℚ × List String :=
  stepLoop (orphanStep db)

/-- `ReferentialIntegrityChecker._check_orphaned_records`
(referential.py 118-240): the overall status is the orphan-count rule on
the total, overridden to ERROR when any sub-record errored. -/
def checkOrphanedRecords (db : DB) : CheckResult × List String :=
  let (subs, totalOrphans, lg) := orphanLoop db orphanChecks
  let base := classifyOrphanCount totalOrphans
  let overall := if subs.any (fun s => s.status == some Status.ERROR)
    then Status.ERROR else base
  ({ status := overall,
     message := some ("Found " ++ toString totalOrphans ++ " orphaned records"),
     data := subs,
     metrics := [("total_orphans", .vRat totalOrphans)],
     error := none }, lg)

/-- The clinical event tables probed by `_check_person_id_consistency`
(referential.py 284-285). -/
def clinicalEventTables : List String :=
  ["condition_occurrence", "drug_exposure", "procedure_occurrence",
   "measurement", "observation", "visit_occurrence"]

/-- Tag standing for the dynamic person-consistency SQL built over the
existing tables (referential.py 296-319). -/
def dynamicPersonConsistencyQuery (tables : List String) : String :=
  "person_id_consistency.dynamic_query " ++ String.intercalate "," tables

/-- Tag standing for the missing-person detail SQL built over the existing
tables (referential.py 335-351). -/
def missingPersonDetailQuery (tables : List String) : String :=
  "person_id_consistency.missing_detail_query " ++ String.intercalate "," tables

/-- Python `int(v)` conversion applied to every value of a row dict
(`{k: int(v) for k, v in data.items()}`, referential.py 364). -/
def intifyRow : Row → Except String Row
  | [] => .ok []
  | (k, v) :: rest => do
    let n ← v.toNum
    let others ← intifyRow rest
    pure ((k, Val.vInt (pyInt n)) :: others)

/-- The missing-person detail block of `_check_person_id_consistency`
(referential.py 333-360): the detail query runs only when persons are
missing, inside its own inner handler that falls back to an empty detail
list. Returns the detail sub-records and the issued queries. -/
def pidDetailBlock (db : DB) (mp : ℚ) (existingTables : List String) :
    List SubRec × List String :=
  if 0 < mp then
    match db.executeQuery (missingPersonDetailQuery existingTables) with
    | .error _ => ([], [missingPersonDetailQuery existingTables])
    | .ok detail =>
      (detail.map (fun r => (⟨r, none, none⟩ : SubRec)),
       [missingPersonDetailQuery existingTables])
  else ([], [])

/-- The part of `_check_person_id_consistency` after the main dynamic query
returned a non-empty frame (referential.py 329-370), inside the outer
handler. -/
def pidBody (db : DB) (row : Row) (existingTables : List String) :
    Except String CheckResult × List String :=
  match row.num "clinical_persons_missing_from_person_table" with
  | .error e => (.error e, [])
  | .ok mp =>
    match row.num "total_missing_references" with
    | .error e => (.error e, [])
    | .ok mref =>
      match intifyRow row with
      | .error e => (.error e, (pidDetailBlock db mp existingTables).2)
      | .ok irow =>
        (.ok { status := if mp = 0 then .PASS else .FAIL,
               message := some ("Found " ++ toString (pyInt mp) ++
                 " person IDs in clinical tables missing from person table"),
               data := ⟨irow, none, none⟩ ::
                 (pidDetailBlock db mp existingTables).1,
               metrics :=
                 [("missing_persons", .vInt (pyInt mp)),
                  ("missing_references", .vInt (pyInt mref)),
                  ("tables_checked",
                     .vStr (String.intercalate "," existingTables))],
               error := none }, (pidDetailBlock db mp existingTables).2)

/-- `ReferentialIntegrityChecker._check_person_id_consistency`
(referential.py 242-373): returns ERROR when the person table is absent
(before issuing any query), WARNING when no clinical table exists, and
otherwise classifies the dynamic query's missing-person count. -/
def checkPersonIdConsistency (db : DB) : CheckResult × List String :=
  if !(tableExists db "person") then
    ({ status := .ERROR, message := some "Person table not found",
       data := [], metrics := [], error := none }, [])
  else
    if (clinicalEventTables.filter (fun t => tableExists db t)).isEmpty then
      ({ status := .WARNING,
         message := some "No clinical tables found to check person ID consistency",
         data := [], metrics := [("missing_persons", .vInt 0)],
         error := none }, [])
    else
      match db.executeQuery (dynamicPersonConsistencyQuery
          (clinicalEventTables.filter (fun t => tableExists db t))) with
      | .error e =>
        (handleError "person_id_consistency" e,
         [dynamicPersonConsistencyQuery
            (clinicalEventTables.filter (fun t => tableExists db t))])
      | .ok [] =>
        ({ status := .ERROR,
           message := some "Failed to analyze person ID consistency",
           data := [], metrics := [], error := none },
         [dynamicPersonConsistencyQuery
            (clinicalEventTables.filter (fun t => tableExists db t))])
      | .ok (row :: _) =>
        match pidBody db row
            (clinicalEventTables.filter (fun t => tableExists db t)) with
        | (.ok r, lg) =>
          (r, dynamicPersonConsistencyQuery
              (clinicalEventTables.filter (fun t => tableExists db t)) :: lg)
        | (.error e, lg) =>
          (handleError "person_id_consistency" e,
           dynamicPersonConsistencyQuery
              (clinicalEventTables.filter (fun t => tableExists db t)) :: lg)

/-- The main visit query of `_check_visit_relationships`
(referential.py 385-395), single-lined. -/
def visitChecksQuery : String :=
  "SELECT COUNT(*) as total_visits, SUM(CASE WHEN visit_occurrence_id IS NULL THEN 1 ELSE 0 END) as visits_without_ids, SUM(CASE WHEN person_id IS NULL THEN 1 ELSE 0 END) as visits_without_person, SUM(CASE WHEN visit_start_date IS NULL THEN 1 ELSE 0 END) as visits_without_start_date, SUM(CASE WHEN visit_end_date < visit_start_date THEN 1 ELSE 0 END) as visits_end_before_start, SUM(CASE WHEN visit_concept_id IS NULL THEN 1 ELSE 0 END) as visits_without_concept, COUNT(DISTINCT person_id) as unique_persons_with_visits FROM visit_occurrence"

/-- The orphaned visit-detail query of `_check_visit_relationships`
(referential.py 420-427), single-lined. -/
def visitDetailQuery : String :=
  "SELECT COUNT(*) as orphaned_visit_details FROM visit_detail vd WHERE NOT EXISTS (SELECT 1 FROM visit_occurrence vo WHERE vo.visit_occurrence_id = vd.visit_occurrence_id)"

/-- The int-if-numeric conversion applied to the visit data dict
(`int(v) if isinstance(v, (int, float)) else v`, referential.py 442):
string values are kept, numeric values are truncated. -/
def intifyKeep (r : Row) : Row :=
  r.map (fun p =>
    match p.2 with
    | .vInt n => (p.1, Val.vInt n)
    | .vRat q => (p.1, Val.vInt (pyInt q))
    | .vStr s => (p.1, Val.vStr s))

/-- The visit-detail block of `_check_visit_relationships`
(referential.py 416-437): returns the `orphaned_visit_details` entry (if
any), its contribution to `total_issues`, and the issued queries. A
failure of the detail query is caught and recorded as the string ERROR. -/
def visitDetailBlock (db : DB) : Option Val × ℚ × List String :=
  if tableExists db "visit_detail" then
    match db.executeQuery visitDetailQuery with
    | .error _ => (some (.vStr "ERROR"), 0, [visitDetailQuery])
    | .ok result =>
      if result.isEmpty then (none, 0, [visitDetailQuery])
      else
        match result.num0 "orphaned_visit_details" with
        | .error _ => (some (.vStr "ERROR"), 0, [visitDetailQuery])
        | .ok vdi => (some (.vInt (pyInt vdi)), vdi, [visitDetailQuery])
  else (some (.vInt 0), 0, [])

/-- The body of `ReferentialIntegrityChecker._check_visit_relationships`
after its table guard (referential.py 384-444), inside the outer handler. -/
def visitRelationshipsBody (db : DB) : Except String CheckResult × List String :=
  match db.executeQuery visitChecksQuery with
  | .error e => (.error e, [visitChecksQuery])
  | .ok [] =>
    (.ok { status := .ERROR, message := some "No visit data found",
           data := [], metrics := [], error := none }, [visitChecksQuery])
  | .ok (row :: _) =>
    match (do
      let a ← row.num "visits_without_ids"
      let b ← row.num "visits_without_person"
      let c ← row.num "visits_without_start_date"
      let d ← row.num "visits_end_before_start"
      let e ← row.num "visits_without_concept"
      pure (a + b + c + d + e) : Except String ℚ) with
    | .error e => (.error e, [visitChecksQuery])
    | .ok baseIssues =>
      (.ok { status :=
               if baseIssues + (visitDetailBlock db).2.1 = 0 then .PASS
               else if baseIssues + (visitDetailBlock db).2.1 < 10 then .WARNING
               else .FAIL,
             message := some ("Found " ++
               toString (pyInt (baseIssues + (visitDetailBlock db).2.1)) ++
               " visit relationship issues"),
             data := [⟨intifyKeep (row ++
               (match (visitDetailBlock db).1 with
                | some v => [("orphaned_visit_details", v)]
                | none => [])), none, none⟩],
             metrics := [("total_issues",
               .vInt (pyInt (baseIssues + (visitDetailBlock db).2.1)))],
             error := none }, visitChecksQuery :: (visitDetailBlock db).2.2)

/-- `ReferentialIntegrityChecker._check_visit_relationships`
(referential.py 375-447): WARNING with no query when visit_occurrence is
absent, otherwise the body wrapped in its handler. -/
def checkVisitRelationships (db : DB) : CheckResult × List String :=
  if !(tableExists db "visit_occurrence") then
    ({ status := .WARNING, message := some "Visit_occurrence table not found",
       data := [], metrics := [], error := none }, [])
  else
    match visitRelationshipsBody db with
    | (.ok r, lg) => (r, lg)
    | (.error e, lg) => (handleError "visit_relationships" e, lg)

/-- One entry of the `concept_checks` list of `_check_concept_integrity`. -/
structure ConceptCheck where
  domain : String
  table : String
  conceptField : String
  expectedDomain : String
  deriving DecidableEq, Repr

/-- The four concept-domain checks of `_check_concept_integrity`
(referential.py 459-484). -/
def conceptChecks : List ConceptCheck :=
  [⟨"Condition", "condition_occurrence", "condition_concept_id", "Condition"⟩,
   ⟨"Drug", "drug_exposure", "drug_concept_id", "Drug"⟩,
   ⟨"Procedure", "procedure_occurrence", "procedure_concept_id", "Procedure"⟩,
   ⟨"Measurement", "measurement", "measurement_concept_id", "Measurement"⟩]

/-- Tag standing for the missing-concepts SQL built per domain
(referential.py 496-504). -/
def missingConceptsQuery (c : ConceptCheck) : String :=
  "concept_integrity.missing_concepts " ++ c.table ++ " " ++ c.conceptField

/-- Tag standing for the wrong-domain SQL built per domain
(referential.py 507-513). -/
def wrongDomainQuery (c : ConceptCheck) : String :=
  "concept_integrity.wrong_domain " ++ c.table ++ " " ++ c.conceptField ++
    " " ++ c.expectedDomain

/-- The ERROR sub-record appended by the per-domain handler of
`_check_concept_integrity` (referential.py 533-543). -/
def conceptErrorSub (c : ConceptCheck) (e : String) : SubRec :=
  ⟨[("domain", .vStr c.domain), ("table", .vStr c.table),
    ("missing_concepts", .vStr "ERROR"), ("wrong_domain_concepts", .vStr "ERROR"),
    ("total_violations", .vStr "ERROR")], some .ERROR, some e⟩

/-- One iteration of the loop of `_check_concept_integrity`
(referential.py 489-543): skipped (no query) when the domain table is
absent; both queries run inside the per-domain handler, with an empty
frame counting as zero. Returns the sub-record (if any), the contribution
to `total_violations`, and the issued queries. -/
def conceptStep (db : DB) (c : ConceptCheck) : Option SubRec × ℚ × List String :=
  if !(tableExists db c.table) then (none, 0, [])
  else
    match db.executeQuery (missingConceptsQuery c) with
    | .error e => (some (conceptErrorSub c e), 0, [missingConceptsQuery c])
    | .ok missingResult =>
      match db.executeQuery (wrongDomainQuery c) with
      | .error e =>
        (some (conceptErrorSub c e), 0,
         [missingConceptsQuery c, wrongDomainQuery c])
      | .ok domainResult =>
        match (do
          let mc ← if missingResult.isEmpty then pure (0 : ℚ)
            else missingResult.num0 "missing_concepts"
          let wd ← if domainResult.isEmpty then pure (0 : ℚ)
            else domainResult.num0 "wrong_domain_concepts"
          pure (mc, wd) : Except String (ℚ × ℚ)) with
        | .error e =>
          (some (conceptErrorSub c e), 0,
           [missingConceptsQuery c, wrongDomainQuery c])
        | .ok (mc, wd) =>
          let tdv := mc + wd
          (some ⟨[("domain", .vStr c.domain), ("table", .vStr c.table),
                  ("missing_concepts", .vInt (pyInt mc)),
                  ("wrong_domain_concepts", .vInt (pyInt wd)),
                  ("total_violations", .vInt (pyInt tdv))],
                 some (if tdv = 0 then Status.PASS else Status.FAIL), none⟩,
           tdv, [missingConceptsQuery c, wrongDomainQuery c])

/-- The loop of `_check_concept_integrity` over the four domains. -/
def conceptLoop (db : DB) : List ConceptCheck → List SubRec × ℚ × List String :=
  stepLoop (conceptStep db)

/-- `ReferentialIntegrityChecker._check_concept_integrity`
(referential.py 449-559): WARNING with no query when the concept table is
absent; otherwise FAIL on any violation, else ERROR when a domain errored,
else PASS. Every failing operation is inside the per-domain handler, so
the outer handler of the source never fires. -/
def checkConceptIntegrity (db : DB) : CheckResult × List String :=
  if !(tableExists db "concept") then
    ({ status := .WARNING,
       message := some "Concept table not found - skipping concept integrity check",
       data := [], metrics := [], error := none }, [])
  else
    let (subs, totalViolations, lg) := conceptLoop db conceptChecks
    let overall :=
      if 0 < totalViolations then Status.FAIL
      else if subs.any (fun s => s.status == some Status.ERROR) then Status.ERROR
      else Status.PASS
    ({ status := overall,
       message := some ("Found " ++ toString totalViolations ++
         " concept integrity violations"),
       data := subs,
       metrics := [("total_violations", .vRat totalViolations)],
       error := none }, lg)

/-- The outcome of `ReferentialIntegrityChecker.run_checks`: either the
single connection-failure dict or the results map. -/
inductive RunOut
  | connFailed (r : CheckResult)
  | results (rs : List (String × CheckResult))
  deriving DecidableEq, Repr

/-- The dict returned by `run_checks` when the connection validation fails
(referential.py 40-43). -/
def connectionFailedResult : CheckResult :=
  { status := .ERROR, message := none, data := [], metrics := [],
    error := some "Database connection failed" }

/-- `ReferentialIntegrityChecker.run_checks` (referential.py 34-70):
validates the connection first, then runs the five named checks in order
(the `log_check_start` and `log_check_complete` calls are pure logging and
are dropped). -/
def runChecksReferential (db : DB) : RunOut × List String :=
  if !(validateDatabaseConnection db) then (.connFailed connectionFailedResult, [])
  else
    let (r1, l1) := checkForeignKeyViolations db
    let (r2, l2) := checkOrphanedRecords db
    let (r3, l3) := checkPersonIdConsistency db
    let (r4, l4) := checkVisitRelationships db
    let (r5, l5) := checkConceptIntegrity db
    (.results [("foreign_key_violations", r1), ("orphaned_records", r2),
               ("person_id_consistency", r3), ("visit_relationships", r4),
               ("concept_integrity", r5)],
     l1 ++ l2 ++ l3 ++ l4 ++ l5)

/-- `OMOPDatabase.execute_query` (src/app/database/connection.py 42-56):
every failure of the underlying query engine (`raw` here) is caught and an
empty DataFrame is returned instead. -/
def omopExecuteQuery (raw : String → Except String Frame) (q : String) : Frame :=
  match raw q with
  | .ok f => f
  | .error _ => []

/-- A database object as built by connection.py: `execute_query` never
raises (it returns an empty frame on failure). -/
def omopDB (raw : String → Except String Frame) (te : String → Bool)
    (tc : Bool) : DB :=
  { executeQuery := fun q => .ok (omopExecuteQuery raw q),
    tableExists := te, testConnection := tc }

/-- The deaths-before-birth query of `_check_birth_death_consistency`
(temporal.py 86-112), single-lined. -/
def birthDeathConsistencyQuery : String :=
  "SELECT p.person_id, p.year_of_birth, p.month_of_birth, p.day_of_birth, d.death_date, CASE WHEN p.day_of_birth IS NOT NULL AND p.month_of_birth IS NOT NULL THEN MAKE_DATE(p.year_of_birth, p.month_of_birth, p.day_of_birth) WHEN p.month_of_birth IS NOT NULL THEN MAKE_DATE(p.year_of_birth, p.month_of_birth, 1) ELSE MAKE_DATE(p.year_of_birth, 1, 1) END as calculated_birth_date FROM person p JOIN death d ON p.person_id = d.person_id WHERE p.year_of_birth IS NOT NULL AND d.death_date IS NOT NULL AND d.death_date < CASE WHEN p.day_of_birth IS NOT NULL AND p.month_of_birth IS NOT NULL THEN MAKE_DATE(p.year_of_birth, p.month_of_birth, p.day_of_birth) WHEN p.month_of_birth IS NOT NULL THEN MAKE_DATE(p.year_of_birth, p.month_of_birth, 1) ELSE MAKE_DATE(p.year_of_birth, 1, 1) END"

/-- The very-old-deaths query of `_check_birth_death_consistency`
(temporal.py 118-126), single-lined. -/
def oldAgeDeathsQuery : String :=
  "SELECT COUNT(*) as very_old_deaths FROM person p JOIN death d ON p.person_id = d.person_id WHERE p.year_of_birth IS NOT NULL AND d.death_date IS NOT NULL AND (EXTRACT(YEAR FROM d.death_date) - p.year_of_birth) > 120"

/-- The body of `TemporalChecker._check_birth_death_consistency`
(temporal.py 85-140), inside its handler: the inconsistency count is the
row count of the first query, the very-old count is read from the second
query (zero on an empty frame). -/
def bdBody (db : DB) : Except String CheckResult × List String :=
  match db.executeQuery birthDeathConsistencyQuery with
  | .error e => (.error e, [birthDeathConsistencyQuery])
  | .ok result =>
    match db.executeQuery oldAgeDeathsQuery with
    | .error e => (.error e, [birthDeathConsistencyQuery, oldAgeDeathsQuery])
    | .ok oldAgeResult =>
      match (if oldAgeResult.isEmpty then .ok 0
        else oldAgeResult.num0 "very_old_deaths" : Except String ℚ) with
      | .error e => (.error e, [birthDeathConsistencyQuery, oldAgeDeathsQuery])
      | .ok vod =>
        (.ok { status := if (result.length : ℚ) + vod = 0 then .PASS else .FAIL,
               message := some ("Found " ++ toString result.length ++
                 " deaths before birth and " ++ toString (pyInt vod) ++
                 " very old deaths"),
               data := result.map (fun r => ⟨r, none, none⟩),
               metrics :=
                 [("inconsistent_count", .vInt result.length),
                  ("very_old_deaths", .vInt (pyInt vod)),
                  ("total_issues", .vRat ((result.length : ℚ) + vod))],
               error := none },
         [birthDeathConsistencyQuery, oldAgeDeathsQuery])

/-- `TemporalChecker._check_birth_death_consistency` (temporal.py 83-147):
the body wrapped in its exception handler. -/
def checkBirthDeathConsistency (db : DB) : CheckResult × List String :=
  match bdBody db with
  | (.ok r, lg) => (r, lg)
  | (.error e, lg) =>
    ({ status := .ERROR,
       message := some "Failed to check birth/death consistency",
       data := [], metrics := [], error := some e }, lg)

/-- Tag standing for the SQL text of `OMOPQueries.get_events_after_death`. -/
def getEventsAfterDeathQuery : String := "OMOPQueries.get_events_after_death"

/-- Building the `check_results` sub-records of `_check_events_after_death`
(temporal.py 176-183) from the filtered rows. -/
def eadSubs : Frame → Except String (List SubRec)
  | [] => .ok []
  | row :: rest => do
    let et ← row.cell "event_type"
    let ec ← row.num "events_after_death"
    let others ← eadSubs rest
    pure (⟨[("event_type", et), ("events_after_death", .vInt (pyInt ec))],
           some (if 0 < ec then Status.FAIL else Status.PASS), none⟩ :: others)

/-- The body of `TemporalChecker._check_events_after_death`
(temporal.py 151-190), inside its handler. -/
def eadBody (db : DB) : Except String CheckResult × List String :=
  match db.executeQuery getEventsAfterDeathQuery with
  | .error e => (.error e, [getEventsAfterDeathQuery])
  | .ok result =>
    if result.isEmpty then
      (.ok { status := .PASS, message := some "No events found after death",
             data := [], metrics := [("total_events_after_death", .vInt 0)],
             error := none }, [getEventsAfterDeathQuery])
    else
      ((do
        let eventsData ← filterGt "events_after_death" result
        if eventsData.isEmpty then
          pure { status := .PASS, message := some "No events found after death",
                 data := [],
                 metrics := [("total_events_after_death", .vInt 0)],
                 error := none }
        else do
          let total ← sumCol "events_after_death" eventsData
          let subs ← eadSubs eventsData
          pure { status := if 0 < total then .FAIL else .PASS,
                 message := some ("Found " ++ toString (pyInt total) ++
                   " events after death"),
                 data := subs,
                 metrics := [("total_events_after_death", .vInt (pyInt total))],
                 error := none }),
       [getEventsAfterDeathQuery])

/-- `TemporalChecker._check_events_after_death` (temporal.py 149-197): the
body wrapped in its exception handler. -/
def checkEventsAfterDeath (db : DB) : CheckResult × List String :=
  match eadBody db with
  | (.ok r, lg) => (r, lg)
  | (.error e, lg) =>
    ({ status := .ERROR, message := some "Failed to check events after death",
       data := [], metrics := [], error := some e }, lg)

/-- The visit-date query of `_check_visit_date_consistency`
(temporal.py 202-211), single-lined. -/
def visitDateConsistencyQuery : String :=
  "SELECT COUNT(*) as total_visits, SUM(CASE WHEN visit_end_date < visit_start_date THEN 1 ELSE 0 END) as end_before_start, SUM(CASE WHEN visit_end_date - visit_start_date > 365 THEN 1 ELSE 0 END) as very_long_visits, SUM(CASE WHEN visit_end_date - visit_start_date < 0 THEN 1 ELSE 0 END) as negative_duration, AVG(CASE WHEN visit_end_date IS NOT NULL THEN visit_end_date - visit_start_date ELSE NULL END) as avg_duration FROM visit_occurrence WHERE visit_start_date IS NOT NULL"

/-- The body of `TemporalChecker._check_visit_date_consistency`
(temporal.py 201-252), inside its handler (the source's
`float(x) if x else 0` on the average duration is kept as the numeric
reading, which raises on a non-numeric cell just as the source does). -/
def vdcBody (db : DB) : Except String CheckResult × List String :=
  match db.executeQuery visitDateConsistencyQuery with
  | .error e => (.error e, [visitDateConsistencyQuery])
  | .ok [] =>
    (.ok { status := .ERROR, message := some "No visit data found",
           data := [], metrics := [], error := none },
     [visitDateConsistencyQuery])
  | .ok (row :: _) =>
    match (do
      let tv ← row.num "total_visits"
      let ebs ← row.num "end_before_start"
      let vlv ← row.num "very_long_visits"
      let nd ← row.num "negative_duration"
      let ad ← row.num "avg_duration"
      pure (tv, ebs, vlv, nd, ad) : Except String (ℚ × ℚ × ℚ × ℚ × ℚ)) with
    | .error e => (.error e, [visitDateConsistencyQuery])
    | .ok (tv, ebs, vlv, nd, ad) =>
      (.ok { status :=
               if ebs + nd = 0 ∧ vlv = 0 then .PASS
               else if ebs + nd = 0 ∧ 0 < vlv then .WARNING
               else .FAIL,
             message := some ("Found " ++ toString (pyInt (ebs + nd)) ++
               " visit date issues and " ++ toString (pyInt vlv) ++
               " very long visits"),
             data := [⟨[("total_visits", .vInt (pyInt tv)),
                        ("end_before_start", .vInt (pyInt ebs)),
                        ("very_long_visits", .vInt (pyInt vlv)),
                        ("negative_duration", .vInt (pyInt nd)),
                        ("avg_duration", .vRat ad)], none, none⟩],
             metrics := [("total_issues", .vInt (pyInt (ebs + nd))),
                         ("warnings", .vInt (pyInt vlv))],
             error := none }, [visitDateConsistencyQuery])

/-- `TemporalChecker._check_visit_date_consistency` (temporal.py 199-259):
the body wrapped in its exception handler. -/
def checkVisitDateConsistency (db : DB) : CheckResult × List String :=
  match vdcBody db with
  | (.ok r, lg) => (r, lg)
  | (.error e, lg) =>
    ({ status := .ERROR,
       message := some "Failed to check visit date consistency",
       data := [], metrics := [], error := some e }, lg)

/-- Tag standing for the events-before-birth SQL of
`_check_age_temporal_issues` (temporal.py 265-303, contains quoted issue
labels). -/
def getAgeTemporalIssuesQuery : String := "temporal.age_temporal_issues_query"

/-- Building the `check_results` sub-records of `_check_age_temporal_issues`
(temporal.py 328-335) from the filtered rows. -/
def atSubs : Frame → Except String (List SubRec)
  | [] => .ok []
  | row :: rest => do
    let it ← row.cell "issue_type"
    let ic ← row.num "issue_count"
    let others ← atSubs rest
    pure (⟨[("issue_type", it), ("issue_count", .vInt (pyInt ic))],
           some (if 0 < ic then Status.FAIL else Status.PASS), none⟩ :: others)

/-- The body of `TemporalChecker._check_age_temporal_issues`
(temporal.py 263-342), inside its handler. -/
def atBody (db : DB) : Except String CheckResult × List String :=
  match db.executeQuery getAgeTemporalIssuesQuery with
  | .error e => (.error e, [getAgeTemporalIssuesQuery])
  | .ok result =>
    if result.isEmpty then
      (.ok { status := .PASS,
             message := some "No age-related temporal issues found",
             data := [], metrics := [("total_issues", .vInt 0)],
             error := none }, [getAgeTemporalIssuesQuery])
    else
      ((do
        let issuesData ← filterGt "issue_count" result
        if issuesData.isEmpty then
          pure { status := .PASS,
                 message := some "No age-related temporal issues found",
                 data := [], metrics := [("total_issues", .vInt 0)],
                 error := none }
        else do
          let total ← sumCol "issue_count" issuesData
          let subs ← atSubs issuesData
          pure { status := if 0 < total then .FAIL else .PASS,
                 message := some ("Found " ++ toString (pyInt total) ++
                   " age-related temporal issues"),
                 data := subs,
                 metrics := [("total_issues", .vInt (pyInt total))],
                 error := none }),
       [getAgeTemporalIssuesQuery])

/-- `TemporalChecker._check_age_temporal_issues` (temporal.py 261-349): the
body wrapped in its exception handler. -/
def checkAgeTemporalIssues (db : DB) : CheckResult × List String :=
  match atBody db with
  | (.ok r, lg) => (r, lg)
  | (.error e, lg) =>
    ({ status := .ERROR,
       message := some "Failed to check age-related temporal issues",
       data := [], metrics := [], error := some e }, lg)

/-- Filtering rows whose cell at column `c` equals the string `v` (the
pandas element-wise `==` comparison of `_check_standard_concept_usage` and
`_check_measurement_outliers`: a non-matching or differently typed cell
compares unequal). -/
def filterEqStr (c v : String) (F : Frame) : Frame :=
  F.filter (fun r => r.lookup c == some (Val.vStr v))

/-- The standard-concept usage query of `_check_standard_concept_usage`
(concept_mapping.py 115-125), single-lined. -/
def standardConceptUsageQuery : String :=
  "SELECT c.standard_concept, COUNT(*) as usage_count, ROUND((COUNT(*) * 100.0) / SUM(COUNT(*)) OVER(), 2) as percentage FROM condition_occurrence co JOIN concept c ON co.condition_concept_id = c.concept_id WHERE c.concept_id != 0 GROUP BY c.standard_concept ORDER BY usage_count DESC"

/-- The status rule of `_check_standard_concept_usage`
(concept_mapping.py 132): at least 80 percent standard usage is PASS, at
least 60 is WARNING, below 60 is FAIL. -/
def classifyStandardUsage (p : ℚ) : Status :=
  if 80 ≤ p then .PASS else if 60 ≤ p then .WARNING else .FAIL

/-- `ConceptMappingChecker._check_standard_concept_usage`
(concept_mapping.py 112-148): the share of rows whose standard_concept is
the string S, zero when no such row exists; an empty frame is an ERROR
result without error detail, a raised failure an ERROR result with it. -/
def checkStandardConceptUsage (db : DB) : CheckResult × List String :=
  match db.executeQuery standardConceptUsageQuery with
  | .error e =>
    ({ status := .ERROR,
       message := some "Failed to check standard concept usage",
       data := [], metrics := [], error := some e }, [standardConceptUsageQuery])
  | .ok result =>
    if result.isEmpty then
      ({ status := .ERROR, message := some "No concept usage data found",
         data := [], metrics := [], error := none }, [standardConceptUsageQuery])
    else
      match (if (filterEqStr "standard_concept" "S" result).isEmpty then .ok 0
        else (filterEqStr "standard_concept" "S" result).num0 "percentage" :
          Except String ℚ) with
      | .error e =>
        ({ status := .ERROR,
           message := some "Failed to check standard concept usage",
           data := [], metrics := [], error := some e },
         [standardConceptUsageQuery])
      | .ok su =>
        ({ status := classifyStandardUsage su,
           message := some (toString su ++ "% of concepts are standard concepts"),
           data := result.map (fun r => ⟨r, none, none⟩),
           metrics := [("standard_percentage", .vRat su)],
           error := none }, [standardConceptUsageQuery])

/-- The vocabulary coverage query of `_check_vocabulary_coverage`
(concept_mapping.py 153-167), single-lined. -/
def vocabularyCoverageQuery : String :=
  "SELECT v.vocabulary_id, v.vocabulary_name, COUNT(DISTINCT c.concept_id) as concept_count, COUNT(DISTINCT co.condition_occurrence_id) as usage_count FROM vocabulary v LEFT JOIN concept c ON v.vocabulary_id = c.vocabulary_id LEFT JOIN condition_occurrence co ON c.concept_id = co.condition_concept_id WHERE c.concept_id != 0 GROUP BY v.vocabulary_id, v.vocabulary_name HAVING COUNT(DISTINCT c.concept_id) > 0 ORDER BY usage_count DESC LIMIT 20"

/-- `ConceptMappingChecker._check_vocabulary_coverage`
(concept_mapping.py 150-190): at least five vocabularies in use is PASS,
fewer is WARNING, an empty frame is WARNING, a raised failure ERROR. -/
def checkVocabularyCoverage (db : DB) : CheckResult × List String :=
  match db.executeQuery vocabularyCoverageQuery with
  | .error e =>
    ({ status := .ERROR, message := some "Failed to check vocabulary coverage",
       data := [], metrics := [], error := some e }, [vocabularyCoverageQuery])
  | .ok result =>
    if result.isEmpty then
      ({ status := .WARNING, message := some "No vocabulary usage data found",
         data := [], metrics := [], error := none }, [vocabularyCoverageQuery])
    else
      ({ status := if 5 ≤ result.length then .PASS else .WARNING,
         message := some ("Found " ++ toString result.length ++
           " vocabularies in use"),
         data := result.map (fun r => ⟨r, none, none⟩),
         metrics := [("total_vocabularies", .vInt result.length)],
         error := none }, [vocabularyCoverageQuery])

/-- An entry of the `domain_checks` list of `_check_domain_integrity`
(concept_mapping.py 194-210). -/
structure DomainCheck where
  expectedDomain : String
  table : String
  conceptField : String
  deriving DecidableEq, Repr

/-- The three `domain_checks` entries (concept_mapping.py 194-210). -/
def domainIntegrityChecks : List DomainCheck :=
  [⟨"Condition", "condition_occurrence", "condition_concept_id"⟩,
   ⟨"Drug", "drug_exposure", "drug_concept_id"⟩,
   ⟨"Procedure", "procedure_occurrence", "procedure_concept_id"⟩]

/-- Tag standing for the wrong-domain SQL built per entry in
`_check_domain_integrity` (concept_mapping.py 217-223; the SQL text quotes
the expected domain). -/
def domainIntegrityQuery (c : DomainCheck) : String :=
  "concept_mapping.domain_integrity " ++ c.table ++ " " ++ c.conceptField ++
    " " ++ c.expectedDomain

/-- One iteration of the `_check_domain_integrity` loop
(concept_mapping.py 215-244): an empty frame appends nothing and adds no
violations; a raised failure appends an ERROR sub-record whose violations
cell is the string ERROR and adds no violations. -/
def diStep (db : DB) (c : DomainCheck) : Option SubRec × ℚ × List String :=
  match db.executeQuery (domainIntegrityQuery c) with
  | .error e =>
    (some ⟨[("domain", .vStr c.expectedDomain), ("table", .vStr c.table),
            ("violations", .vStr "ERROR")], some .ERROR, some e⟩, 0,
     [domainIntegrityQuery c])
  | .ok result =>
    if result.isEmpty then (none, 0, [domainIntegrityQuery c])
    else
      match result.num0 "violation_count" with
      | .error e =>
        (some ⟨[("domain", .vStr c.expectedDomain), ("table", .vStr c.table),
                ("violations", .vStr "ERROR")], some .ERROR, some e⟩, 0,
         [domainIntegrityQuery c])
      | .ok vc =>
        (some ⟨[("domain", .vStr c.expectedDomain), ("table", .vStr c.table),
                ("violations", .vRat vc)],
               some (if vc = 0 then Status.PASS else Status.FAIL), none⟩, vc,
         [domainIntegrityQuery c])

/-- `ConceptMappingChecker._check_domain_integrity`
(concept_mapping.py 192-251): the per-entry loop with its per-iteration
handler, then PASS exactly when the summed violations are zero. -/
def checkDomainIntegrity (db : DB) : CheckResult × List String :=
  ({ status :=
       if (stepLoop (diStep db) domainIntegrityChecks).2.1 = 0 then .PASS
       else .FAIL,
     message := some ("Found " ++
       toString (pyInt (stepLoop (diStep db) domainIntegrityChecks).2.1) ++
       " domain integrity violations"),
     data := (stepLoop (diStep db) domainIntegrityChecks).1,
     metrics := [("total_violations",
       .vRat (stepLoop (diStep db) domainIntegrityChecks).2.1)],
     error := none },
   (stepLoop (diStep db) domainIntegrityChecks).2.2)

/-- Python `value_counts` over a list of cell values: each distinct value
with its number of occurrences. The source only iterates the pairs into
issue-summary records, so the descending-count ordering of pandas is
immaterial; first-appearance order is used. -/
def dedupVals (vs : List Val) : List Val :=
  vs.foldl (fun acc v => if acc.contains v then acc else acc ++ [v]) []

/-- The distinct values of a cell list, each with its occurrence count. -/
def valueCounts (vs : List Val) : List (Val × Nat) :=
  (dedupVals vs).map (fun v => (v, vs.countP (fun x => x == v)))

/-- The issue-summary records of `_check_age_outliers` and
`_check_drug_quantity_outliers` (statistical.py 120-127, 205-212), built
from the issue_type column; they are carried in `data` after the result
rows, since the embedding's result has a single record-list field. -/
def issueSummarySubs (vs : List Val) : List SubRec :=
  (valueCounts vs).map
    (fun p => ⟨[("issue_type", p.1), ("count", .vInt p.2)], none, none⟩)

/-- Tag standing for the age-outlier SQL of `_check_age_outliers`
(statistical.py 92-114; the SQL text quotes the issue labels). -/
def ageOutliersQuery : String := "statistical.age_outliers_query"

/-- `StatisticalOutlierChecker._check_age_outliers` (statistical.py 81-138):
a missing person table short-circuits to WARNING with zero queries;
failures raised inside the handler (the query or the issue_type column
read) go to `handle_error`. -/
def checkAgeOutliers (db : DB) : CheckResult × List String :=
  if !db.tableExists "person" then
    ({ status := .WARNING,
       message := some "Person table not found - skipping age outlier check",
       data := [], metrics := [("outlier_count", .vInt 0)], error := none }, [])
  else
    match db.executeQuery ageOutliersQuery with
    | .error e => (handleError "age_outliers" e, [ageOutliersQuery])
    | .ok result =>
      if result.isEmpty then
        ({ status := .PASS, message := some "Found 0 age outliers",
           data := [], metrics := [("outlier_count", .vInt 0)],
           error := none }, [ageOutliersQuery])
      else
        match result.mapM (fun r => r.cell "issue_type") with
        | .error e => (handleError "age_outliers" e, [ageOutliersQuery])
        | .ok vals =>
          ({ status := if result.length = 0 then .PASS
               else if result.length < 10 then .WARNING else .FAIL,
             message := some ("Found " ++ toString result.length ++
               " age outliers"),
             data := result.map (fun r => ⟨r, none, none⟩) ++
               issueSummarySubs vals,
             metrics := [("outlier_count", .vInt result.length)],
             error := none }, [ageOutliersQuery])

/-- Tag standing for the drug-quantity outlier SQL of
`_check_drug_quantity_outliers` (statistical.py 151-173; the SQL text
quotes the issue labels). -/
def drugQuantityQuery : String := "statistical.drug_quantity_query"

/-- The summary-statistics query of `_check_drug_quantity_outliers`
(statistical.py 179-191), single-lined. -/
def drugSummaryQuery : String :=
  "SELECT COUNT(*) as total_drug_exposures, COUNT(quantity) as records_with_quantity, COUNT(days_supply) as records_with_days_supply, COALESCE(AVG(quantity), 0) as avg_quantity, COALESCE(STDDEV(quantity), 0) as std_quantity, COALESCE(MIN(quantity), 0) as min_quantity, COALESCE(MAX(quantity), 0) as max_quantity, COALESCE(PERCENTILE_CONT(0.95) WITHIN GROUP (ORDER BY quantity), 0) as p95_quantity FROM drug_exposure WHERE quantity IS NOT NULL AND quantity >= 0"

/-- The inner summary-statistics block of `_check_drug_quantity_outliers`
(statistical.py 193-202): its own handler turns a failure into an empty
stats dict, as does an empty frame; the stats row is carried as one
plain record in `data`. -/
def drugSummaryStats (db : DB) : List SubRec :=
  match db.executeQuery drugSummaryQuery with
  | .error _ => []
  | .ok [] => []
  | .ok (row :: _) => [⟨row, none, none⟩]

/-- `StatisticalOutlierChecker._check_drug_quantity_outliers`
(statistical.py 140-224): a missing drug_exposure table short-circuits to
WARNING with zero queries; the summary query failure is swallowed by its
inner handler, so only the outlier query and the issue_type read reach
`handle_error`. -/
def checkDrugQuantityOutliers (db : DB) : CheckResult × List String :=
  if !db.tableExists "drug_exposure" then
    ({ status := .WARNING,
       message := some
         "Drug_exposure table not found - skipping drug quantity outlier check",
       data := [], metrics := [("outlier_count", .vInt 0)], error := none }, [])
  else
    match db.executeQuery drugQuantityQuery with
    | .error e => (handleError "drug_quantity_outliers" e, [drugQuantityQuery])
    | .ok result =>
      if result.isEmpty then
        ({ status := .PASS, message := some "Found 0 drug quantity outliers",
           data := drugSummaryStats db,
           metrics := [("outlier_count", .vInt 0)], error := none },
         [drugQuantityQuery, drugSummaryQuery])
      else
        match result.mapM (fun r => r.cell "issue_type") with
        | .error e =>
          (handleError "drug_quantity_outliers" e,
           [drugQuantityQuery, drugSummaryQuery])
        | .ok vals =>
          ({ status := if result.length = 0 then .PASS
               else if result.length < 50 then .WARNING else .FAIL,
             message := some ("Found " ++ toString result.length ++
               " drug quantity outliers"),
             data := result.map (fun r => ⟨r, none, none⟩) ++
               issueSummarySubs vals ++ drugSummaryStats db,
             metrics := [("outlier_count", .vInt result.length)],
             error := none }, [drugQuantityQuery, drugSummaryQuery])

/-- Tag standing for the SQL text of `OMOPQueries.get_measurement_outliers`. -/
def getMeasurementOutliersQuery : String := "OMOPQueries.get_measurement_outliers"

/-- Rendering a cell value into an interpolated query text. -/
def Val.render : Val → String
  | .vInt n => toString n
  | .vRat q => toString q
  | .vStr s => s

/-- Tag standing for the per-concept outlier-records SQL of
`_check_measurement_outliers` (statistical.py 262-277), parameterised by
the interpolated concept id and value bounds. -/
def measurementDetailQuery (cid minv maxv avgv : Val) : String :=
  "statistical.measurement_detail_query " ++ cid.render ++ " " ++
    minv.render ++ " " ++ maxv.render ++ " " ++ avgv.render

/-- The per-row detail query of `_check_measurement_outliers`
(statistical.py 254-259, 262-277), built from the row's concept id and its
`row.get(..., 0)` value bounds. -/
def moRowQuery (row : Row) (cid : Val) : String :=
  measurementDetailQuery cid ((row.lookup "min_value").getD (.vInt 0))
    ((row.lookup "max_value").getD (.vInt 0))
    ((row.lookup "avg_value").getD (.vInt 0))

/-- One iteration of the detailed-outlier loop of
`_check_measurement_outliers` (statistical.py 254-287): the concept id and
name reads raise to the outer handler, while the detail query and the
`int(concept_id)` conversion sit inside the inner handler, which skips the
append on failure. The detail records are carried flattened in `data`
after each concept entry. -/
def moDetailStep (db : DB) (row : Row) : Except String (List SubRec × List String) :=
  match row.cell "measurement_concept_id" with
  | .error e => .error e
  | .ok cid =>
    match row.cell "concept_name" with
    | .error e => .error e
    | .ok cn =>
      match db.executeQuery (moRowQuery row cid) with
      | .error _ => .ok ([], [moRowQuery row cid])
      | .ok orecs =>
        match cid.toNum with
        | .error _ => .ok ([], [moRowQuery row cid])
        | .ok cq =>
          .ok (⟨[("concept_name", cn), ("concept_id", .vInt (pyInt cq))],
                none, none⟩ :: orecs.map (fun r => ⟨r, none, none⟩),
               [moRowQuery row cid])

/-- The detailed-outlier loop over the top rows: an abort at one row keeps
the queries already issued by the earlier rows. -/
def moDetailLoop (db : DB) : List Row → Except String (List SubRec) × List String
  | [] => (.ok [], [])
  | row :: rest =>
    match moDetailStep db row with
    | .error e => (.error e, [])
    | .ok (subs, lg) =>
      match moDetailLoop db rest with
      | (.error e, lg2) => (.error e, lg ++ lg2)
      | (.ok more, lg2) => (.ok (subs ++ more), lg ++ lg2)

/-- `StatisticalOutlierChecker._check_measurement_outliers`
(statistical.py 226-299): a missing measurement table short-circuits to
WARNING with zero queries; an empty frame is WARNING; otherwise the
OUTLIER rows are counted, the top five get detail queries, and the status
is PASS exactly when no OUTLIER row exists (never FAIL). -/
def checkMeasurementOutliers (db : DB) : CheckResult × List String :=
  if !db.tableExists "measurement" then
    ({ status := .WARNING,
       message := some
         "Measurement table not found - skipping measurement outlier check",
       data := [], metrics := [("outlier_count", .vInt 0)], error := none }, [])
  else
    match db.executeQuery getMeasurementOutliersQuery with
    | .error e =>
      (handleError "measurement_outliers" e, [getMeasurementOutliersQuery])
    | .ok result =>
      if result.isEmpty then
        ({ status := .WARNING,
           message := some "No measurement data available for analysis",
           data := [], metrics := [("outlier_count", .vInt 0)],
           error := none }, [getMeasurementOutliersQuery])
      else
        match moDetailLoop db
            ((filterEqStr "outlier_status" "OUTLIER" result).take 5) with
        | (.error e, lg) =>
          (handleError "measurement_outliers" e,
           getMeasurementOutliersQuery :: lg)
        | (.ok details, lg) =>
          ({ status :=
               if (filterEqStr "outlier_status" "OUTLIER" result).length = 0
               then .PASS else .WARNING,
             message := some ("Found " ++
               toString (filterEqStr "outlier_status" "OUTLIER" result).length ++
               " measurements with outlier ranges"),
             data := result.map (fun r => ⟨r, none, none⟩) ++ details,
             metrics :=
               [("outlier_count",
                 .vInt (filterEqStr "outlier_status" "OUTLIER" result).length),
                ("measurements_analyzed", .vInt result.length)],
             error := none }, getMeasurementOutliersQuery :: lg)

/-- Tag standing for the SQL text of
`OMOPQueries.get_visit_duration_analysis`. -/
def getVisitDurationAnalysisQuery : String :=
  "OMOPQueries.get_visit_duration_analysis"

/-- Tag standing for the detailed visit-outlier SQL of
`_check_visit_duration_outliers` (statistical.py 328-349; the SQL text
quotes the issue labels). -/
def visitDurationDetailQuery : String := "statistical.visit_duration_detail_query"

/-- The inner detailed-records block of `_check_visit_duration_outliers`
(statistical.py 351-356): its own handler turns a failure into an empty
detail list; the detail rows are carried in `data` after the result rows. -/
def visitDurationDetails (db : DB) : List SubRec :=
  match db.executeQuery visitDurationDetailQuery with
  | .error _ => []
  | .ok orecs => orecs.map (fun r => ⟨r, none, none⟩)

/-- `StatisticalOutlierChecker._check_visit_duration_outliers`
(statistical.py 301-369): a missing visit_occurrence table short-circuits
to WARNING with zero queries; an empty frame is WARNING; the outlier total
is the sum of the negative_durations and very_long_visits columns, whose
reads raise to `handle_error`. -/
def checkVisitDurationOutliers (db : DB) : CheckResult × List String :=
  if !db.tableExists "visit_occurrence" then
    ({ status := .WARNING,
       message := some
         "Visit_occurrence table not found - skipping visit duration outlier check",
       data := [], metrics := [("total_outliers", .vInt 0)], error := none }, [])
  else
    match db.executeQuery getVisitDurationAnalysisQuery with
    | .error e =>
      (handleError "visit_duration_outliers" e, [getVisitDurationAnalysisQuery])
    | .ok result =>
      if result.isEmpty then
        ({ status := .WARNING,
           message := some "No visit data available for analysis",
           data := [], metrics := [("total_outliers", .vInt 0)],
           error := none }, [getVisitDurationAnalysisQuery])
      else
        match sumCol "negative_durations" result with
        | .error e =>
          (handleError "visit_duration_outliers" e,
           [getVisitDurationAnalysisQuery])
        | .ok tn =>
          match sumCol "very_long_visits" result with
          | .error e =>
            (handleError "visit_duration_outliers" e,
             [getVisitDurationAnalysisQuery])
          | .ok tvl =>
            ({ status := if tn + tvl = 0 then .PASS
                 else if tn + tvl < 20 then .WARNING else .FAIL,
               message := some ("Found " ++ toString (pyInt (tn + tvl)) ++
                 " visit duration outliers"),
               data := result.map (fun r => ⟨r, none, none⟩) ++
                 visitDurationDetails db,
               metrics := [("total_outliers", .vInt (pyInt (tn + tvl))),
                           ("negative_durations", .vInt (pyInt tn)),
                           ("very_long_visits", .vInt (pyInt tvl))],
               error := none },
             [getVisitDurationAnalysisQuery, visitDurationDetailQuery])

/-- Whether one character list starts with another. -/
def leadsWith : List Char → List Char → Bool
  | [], _ => true
  | _ :: _, [] => false
  | a :: as, b :: bs => a == b && leadsWith as bs

/-- Whether a character list occurs inside another. -/
def hasSub (needle : List Char) : List Char → Bool
  | [] => leadsWith needle []
  | b :: bs => leadsWith needle (b :: bs) || hasSub needle bs

/-- The pandas `str.contains(pat, case=False, na=False)` test with a
one-alternative pattern: a case-insensitive substring match that is false
on a non-string cell. Note the source's Male alternation therefore also
matches Female rows, which contain male as a substring. -/
def strContainsCI (s pat : String) : Bool :=
  hasSub pat.toLower.toList s.toLower.toList

/-- A row whose gender cell matches the given pattern under the source's
`str.contains(..., case=False, na=False)` filter (statistical.py 433-434). -/
def genderHas (pat : String) (r : Row) : Bool :=
  match r.lookup "gender" with
  | some (.vStr s) => strContainsCI s pat
  | _ => false

/-- Tag standing for the gender-distribution SQL of
`_check_distribution_anomalies` (statistical.py 375-387; the SQL text
quotes the Unknown label). -/
def genderDistributionQuery : String := "statistical.gender_distribution_query"

/-- Tag standing for the age-distribution SQL (statistical.py 390-417; the
SQL text quotes the age-group labels). -/
def ageDistributionQuery : String := "statistical.age_distribution_query"

/-- Tag standing for the SQL text of `OMOPQueries.get_data_density_by_year`. -/
def getDataDensityQuery : String := "OMOPQueries.get_data_density_by_year"

/-- The duplicate-analysis query of `_check_distribution_anomalies`
(statistical.py 505-520), single-lined. -/
def duplicateAnalysisQuery : String :=
  "WITH duplicate_conditions AS (SELECT person_id, condition_concept_id, condition_start_date, COUNT(*) as duplicate_count FROM condition_occurrence GROUP BY person_id, condition_concept_id, condition_start_date HAVING COUNT(*) > 1) SELECT COUNT(*) as total_duplicate_groups, SUM(duplicate_count) as total_duplicate_records FROM duplicate_conditions"

/-- The gender block of `_check_distribution_anomalies`
(statistical.py 426-443), returning its distribution records, its anomaly
strings and its issued queries: a failure inside the block resets the
records to empty and appends the failure string. Numeric interpolations in
anomaly strings are rendered with toString in place of Python format
specifiers throughout this check. -/
def genderBlock (db : DB) : List SubRec × List String × List String :=
  if db.tableExists "person" then
    match db.executeQuery genderDistributionQuery with
    | .error e =>
      ([], ["Failed to analyze gender distribution: " ++ e],
       [genderDistributionQuery])
    | .ok gr =>
      if gr.isEmpty then ([], [], [genderDistributionQuery])
      else
        match sumCol "percentage" (gr.filter (genderHas "male")) with
        | .error e =>
          ([], ["Failed to analyze gender distribution: " ++ e],
           [genderDistributionQuery])
        | .ok mp =>
          match sumCol "percentage" (gr.filter (genderHas "female")) with
          | .error e =>
            ([], ["Failed to analyze gender distribution: " ++ e],
             [genderDistributionQuery])
          | .ok fp =>
            (gr.map (fun r => ⟨r, none, none⟩),
             (if 30 < |mp - fp| then
                ["Gender distribution heavily skewed: " ++ toString mp ++
                 "% male, " ++ toString fp ++ "% female"]
              else []) ++
             (if mp < 10 ∨ fp < 10 then
                ["One gender severely underrepresented (<10%)"]
              else []),
             [genderDistributionQuery])
  else ([], [], [])

/-- The age block of `_check_distribution_anomalies`
(statistical.py 446-470): the over/under percentage anomalies are appended
before the age-group list is read, so a failure there keeps them; the
missing-group set is rendered in the expected-list order. -/
def ageBlock (db : DB) : List SubRec × List String × List String :=
  if db.tableExists "person" then
    match db.executeQuery ageDistributionQuery with
    | .error e =>
      ([], ["Failed to analyze age distribution: " ++ e], [ageDistributionQuery])
    | .ok ar =>
      if ar.isEmpty then ([], [], [ageDistributionQuery])
      else
        match sumCol "percentage" (filterEqStr "age_group" "Under 18" ar) with
        | .error e =>
          ([], ["Failed to analyze age distribution: " ++ e],
           [ageDistributionQuery])
        | .ok u18 =>
          match sumCol "percentage" (filterEqStr "age_group" "Over 70" ar) with
          | .error e =>
            ([], ["Failed to analyze age distribution: " ++ e],
             [ageDistributionQuery])
          | .ok o70 =>
            match ar.mapM (fun r => r.cell "age_group") with
            | .error e =>
              ([],
               (if 50 < u18 then
                  ["Unusually high percentage of patients under 18: " ++
                   toString u18 ++ "%"]
                else []) ++
               (if 60 < o70 then
                  ["Unusually high percentage of patients over 70: " ++
                   toString o70 ++ "%"]
                else []) ++
               ["Failed to analyze age distribution: " ++ e],
               [ageDistributionQuery])
            | .ok groups =>
              (ar.map (fun r => ⟨r, none, none⟩),
               (if 50 < u18 then
                  ["Unusually high percentage of patients under 18: " ++
                   toString u18 ++ "%"]
                else []) ++
               (if 60 < o70 then
                  ["Unusually high percentage of patients over 70: " ++
                   toString o70 ++ "%"]
                else []) ++
               (if (["18-30", "31-50", "51-70"].filter
                     (fun g => !groups.contains (Val.vStr g))) = [] then []
                else
                  ["Missing age groups: " ++ String.intercalate ", "
                    (["18-30", "31-50", "51-70"].filter
                      (fun g => !groups.contains (Val.vStr g)))]),
               [ageDistributionQuery])
  else ([], [], [])

/-- Inserting a year-keyed row into a sorted list (the
`sort_values('year')` of statistical.py 483). -/
def insertByYear (x : Int × Row) : List (Int × Row) → List (Int × Row)
  | [] => [x]
  | y :: ys => if x.1 ≤ y.1 then x :: y :: ys else y :: insertByYear x ys

/-- Sorting the year-cast rows by year. -/
def sortByYear (l : List (Int × Row)) : List (Int × Row) :=
  l.foldr insertByYear []

/-- The adjacent-year comparison loop of `_check_distribution_anomalies`
(statistical.py 485-497): anomalies collected so far survive a failing
extraction, which is reported through the second component. -/
def densLoop : (Int × Row) → List (Int × Row) → List String × Option String
  | _, [] => ([], none)
  | prev, cur :: rest =>
    match (cur.2).num "total_conditions" with
    | .error e => ([], some e)
    | .ok c =>
      match (prev.2).num "total_conditions" with
      | .error e => ([], some e)
      | .ok p =>
        ((if 0 < p then
            (if ((c - p) / p) * 100 < -50 then
               ["Significant data drop in " ++ toString cur.1 ++ ": " ++
                toString (((c - p) / p) * 100) ++ "% decrease"]
             else if 200 < ((c - p) / p) * 100 then
               ["Unusual data spike in " ++ toString cur.1 ++ ": " ++
                toString (((c - p) / p) * 100) ++ "% increase"]
             else [])
          else []) ++ (densLoop cur rest).1,
         (densLoop cur rest).2)

/-- The data-density block of `_check_distribution_anomalies`
(statistical.py 473-500): a single-row frame keeps its records with no
comparisons; the year cast (astype int, modelled as the numeric read
truncated toward zero) and the comparison loop raise into the block's
handler, which resets the records and appends the failure string after the
anomalies already collected. -/
def densityBlock (db : DB) : List SubRec × List String × List String :=
  if db.tableExists "condition_occurrence" then
    match db.executeQuery getDataDensityQuery with
    | .error e =>
      ([], ["Failed to analyze data density: " ++ e], [getDataDensityQuery])
    | .ok dr =>
      if dr.isEmpty then ([], [], [getDataDensityQuery])
      else if dr.length ≤ 1 then
        (dr.map (fun r => ⟨r, none, none⟩), [], [getDataDensityQuery])
      else
        match dr.mapM (fun r => (r.num "year").map (fun y => (pyInt y, r))) with
        | .error e =>
          ([], ["Failed to analyze data density: " ++ e], [getDataDensityQuery])
        | .ok yrs =>
          match sortByYear yrs with
          | [] => (dr.map (fun r => ⟨r, none, none⟩), [], [getDataDensityQuery])
          | first :: rest =>
            match densLoop first rest with
            | (anoms, some e) =>
              ([], anoms ++ ["Failed to analyze data density: " ++ e],
               [getDataDensityQuery])
            | (anoms, none) =>
              (dr.map (fun r => ⟨r, none, none⟩), anoms, [getDataDensityQuery])
  else ([], [], [])

/-- The duplicate-analysis block of `_check_distribution_anomalies`
(statistical.py 503-532): the first row is kept as one record; the
`> 100` comparison on a non-numeric cell raises into the block's handler,
which resets the record to the empty dict. -/
def duplicatesBlock (db : DB) : List SubRec × List String × List String :=
  if db.tableExists "condition_occurrence" then
    match db.executeQuery duplicateAnalysisQuery with
    | .error e =>
      ([], ["Failed to analyze duplicates: " ++ e], [duplicateAnalysisQuery])
    | .ok [] => ([], [], [duplicateAnalysisQuery])
    | .ok (row :: _) =>
      match ((row.lookup "total_duplicate_records").getD (.vInt 0)).toNum with
      | .error e =>
        ([⟨[], none, none⟩], ["Failed to analyze duplicates: " ++ e],
         [duplicateAnalysisQuery])
      | .ok td =>
        ([⟨row, none, none⟩],
         if 100 < td then
           ["High number of duplicate condition records: " ++
            toString (pyInt td)]
         else [],
         [duplicateAnalysisQuery])
  else ([], [], [])

/-- The full anomaly list of `_check_distribution_anomalies`, in block
order. -/
def distributionAnomalyList (db : DB) : List String :=
  (genderBlock db).2.1 ++ (ageBlock db).2.1 ++ (densityBlock db).2.1 ++
    (duplicatesBlock db).2.1

/-- `StatisticalOutlierChecker._check_distribution_anomalies`
(statistical.py 371-551): four independently guarded blocks feed the
anomaly list; every failing operation sits inside a block handler, so the
outer `handle_error` never fires and the result always carries no error
entry. The distribution record lists are carried in `data` in block order;
the anomaly strings are carried as one joined metrics entry. -/
def checkDistributionAnomalies (db : DB) : CheckResult × List String :=
  ({ status :=
       if (distributionAnomalyList db).isEmpty then .PASS
       else if (distributionAnomalyList db).length ≤ 2 then .WARNING
       else .FAIL,
     message := some ("Found " ++ toString (distributionAnomalyList db).length ++
       " distribution anomalies"),
     data := (genderBlock db).1 ++ (ageBlock db).1 ++ (densityBlock db).1 ++
       (duplicatesBlock db).1,
     metrics :=
       [("anomaly_count", .vInt (distributionAnomalyList db).length),
        ("anomalies_found",
         .vStr (String.intercalate "; " (distributionAnomalyList db)))],
     error := none },
   (genderBlock db).2.2 ++ (ageBlock db).2.2 ++ (densityBlock db).2.2 ++
     (duplicatesBlock db).2.2)

/-- A minimal PASS result, used for concrete summary inputs. -/
def passResult : CheckResult := ⟨.PASS, none, [], [], none⟩

/-- A minimal FAIL result, used for concrete summary inputs. -/
def failResult : CheckResult := ⟨.FAIL, none, [], [], none⟩

/-- A minimal WARNING result, used for concrete summary inputs. -/
def warnResult : CheckResult := ⟨.WARNING, none, [], [], none⟩

/-- A minimal ERROR result, used for concrete summary inputs. -/
def errResult : CheckResult := ⟨.ERROR, none, [], [], some "boom"⟩

/-- C1: on the rollup input a PASS, b FAIL, c WARNING, `get_summary` returns
total 3, passed 1, failed 1, warning 1 — but its dict has exactly the four
keys total_checks, passed_checks, failed_checks, warning_checks and carries
no errored count; on the repository's own test input (one result of each
status) the error_checks key the test asserts is likewise absent. -/
theorem c1_summary_has_no_errored_count :
    getSummary [("a", passResult), ("b", failResult), ("c", warnResult)] =
      [("total_checks", 3), ("passed_checks", 1), ("failed_checks", 1),
       ("warning_checks", 1)] ∧
    (getSummary [("a", passResult), ("b", failResult), ("c", warnResult)]).lookup
      "errored_checks" = none ∧
    getSummary [("check1", passResult), ("check2", failResult),
                ("check3", warnResult), ("check4", errResult)] =
      [("total_checks", 4), ("passed_checks", 1), ("failed_checks", 1),
       ("warning_checks", 1)] ∧
    (getSummary [("check1", passResult), ("check2", failResult),
                 ("check3", warnResult), ("check4", errResult)]).lookup
      "error_checks" = none := by
  decide

/-- A results map whose single check carries three sub-records with their
own statuses inside `data` (the critical-fields shape). -/
def nestedExample : List (String × CheckResult) :=
  [("critical_fields",
    { status := .FAIL, message := none,
      data := [⟨[], some .PASS, none⟩, ⟨[], some .FAIL, none⟩,
               ⟨[], some .FAIL, none⟩],
      metrics := [], error := none })]

/-- C4 counterexample: on a results map whose one check holds three
sub-records with their own statuses, `get_summary` reports total 1 and
failed 1 — the sub-records are not counted as additional units (the claim
would require total 4 and failed 3). -/
theorem c4_cex_subrecords_not_counted :
    getSummary nestedExample =
      [("total_checks", 1), ("passed_checks", 0), ("failed_checks", 1),
       ("warning_checks", 0)] ∧
    (getSummary nestedExample).lookup "total_checks" ≠ some 4 ∧
    (getSummary nestedExample).lookup "failed_checks" ≠ some 3 := by
  decide

/-- Auxiliary: `countStatus` only looks at each result's top-level status,
so replacing every `data` field leaves it unchanged. -/
theorem countStatus_map_setData (rs : List (String × CheckResult))
    (f : String × CheckResult → List SubRec) (s : Status) :
    countStatus (rs.map (fun p => (p.1, setData p.2 (f p)))) s =
      countStatus rs s := by
  induction rs with
  | nil => rfl
  | cons a l ih =>
    unfold countStatus at ih ⊢
    simp only [List.map_cons, List.countP_cons]
    rw [ih]
    rfl

/-- C4 (amended): the summary is computed from each named check's own
top-level status only; replacing the `data` field of every result (hence
any sub-records it contains) leaves the summary unchanged, so sub-records
contribute nothing to the totals. -/
theorem c4_summary_ignores_subrecords :
    ∀ (rs : List (String × CheckResult))
      (f : String × CheckResult → List SubRec),
      getSummary (rs.map (fun p => (p.1, setData p.2 (f p)))) = getSummary rs := by
  intro rs f
  simp [getSummary, countStatus_map_setData]

/-- A database whose every query returns an empty frame and which reports
every table as absent. -/
def emptyDB : DB := ⟨fun _ => .ok [], fun _ => false, true⟩

/-- C5 counterexample: the completeness checker's `run_checks` result key
set has four names, not five. -/
theorem c5_cex_four_check_names :
    (runChecksCompleteness emptyDB).1.map Prod.fst =
      ["table_completeness", "critical_fields", "person_completeness",
       "domain_completeness"] ∧
    ((runChecksCompleteness emptyDB).1.map Prod.fst).length ≠ 5 := by
  decide

/-- C5 (amended): for every database, the completeness checker's
`run_checks` key set is exactly the four fixed completeness check names;
the factory returns a completeness instance for the name completeness and
raises the unknown-checker ValueError for the name nonexistent, without
constructing a checker. -/
theorem c5_registry_and_check_names :
    (∀ db : DB, (runChecksCompleteness db).1.map Prod.fst =
      ["table_completeness", "critical_fields", "person_completeness",
       "domain_completeness"]) ∧
    (∀ db : DB, ∃ inst : CheckerInstance,
      getQualityChecker "completeness" db = .ok inst ∧
      inst.kind = .completeness) ∧
    (∀ db : DB, getQualityChecker "nonexistent" db =
      .error "Unknown quality checker: nonexistent") := by
  refine ⟨fun db => rfl, fun db => ⟨⟨.completeness, db⟩, rfl, rfl⟩, fun db => rfl⟩

/-- C7 counterexample: no pair of cutoffs makes the source's rule (PASS only
at exactly zero percent) agree with the claimed rule (PASS strictly below
the warning cutoff) on all nonnegative percentages. -/
theorem c7_cex_no_cutoffs_match :
    ¬ ∃ w f : ℚ, ∀ p : ℚ, 0 ≤ p →
      classifyNullPercentage p = claimedThresholdClassify w f p := by
  rintro ⟨w, f, h⟩
  by_cases hw : 0 < w
  · have hp0 : (0 : ℚ) < min w 1 := lt_min hw one_pos
    have hp : (0 : ℚ) < min w 1 / 2 := by linarith
    have hpw : min w 1 / 2 < w := by
      have := min_le_left w 1
      linarith
    have hp5 : min w 1 / 2 < 5 := by
      have := min_le_right w 1
      linarith
    have heq := h (min w 1 / 2) (le_of_lt hp)
    unfold classifyNullPercentage claimedThresholdClassify at heq
    rw [if_neg (ne_of_gt hp), if_pos hp5, if_pos hpw] at heq
    exact Status.noConfusion heq
  · have h0 := h 0 le_rfl
    unfold classifyNullPercentage claimedThresholdClassify at h0
    rw [if_pos rfl, if_neg (by simpa using not_lt.mpr (not_lt.mp hw))] at h0
    by_cases hf : (0 : ℚ) < f
    · rw [if_pos hf] at h0
      exact Status.noConfusion h0
    · rw [if_neg hf] at h0
      exact Status.noConfusion h0

/-- C7 (amended): the table-completeness classifier used by
`_check_table_completeness` maps a nonnegative null percentage to PASS
exactly at zero, to WARNING exactly on the open interval from zero to
five, and to FAIL exactly at five or more; the cutoffs zero and five are
hard-coded in the source, not read from configuration. -/
theorem c7_null_classification (p : ℚ) (hp : 0 ≤ p) :
    (classifyNullPercentage p = .PASS ↔ p = 0) ∧
    (classifyNullPercentage p = .WARNING ↔ 0 < p ∧ p < 5) ∧
    (classifyNullPercentage p = .FAIL ↔ 5 ≤ p) := by
  unfold classifyNullPercentage
  split_ifs with h0 h5
  · subst h0
    refine ⟨⟨fun _ => rfl, fun _ => rfl⟩, ?_, ?_⟩
    · constructor
      · intro hcon
        exact absurd hcon (by decide)
      · intro hcon
        exact absurd hcon.1 (lt_irrefl 0)
    · constructor
      · intro hcon
        exact absurd hcon (by decide)
      · intro hcon
        linarith
  · refine ⟨⟨fun hcon => absurd hcon (by decide), fun hcon => absurd hcon h0⟩,
      ⟨fun _ => ⟨lt_of_le_of_ne hp (Ne.symm h0), h5⟩, fun _ => rfl⟩,
      ⟨fun hcon => absurd hcon (by decide), fun hcon => absurd hcon (by linarith)⟩⟩
  · refine ⟨⟨fun hcon => absurd hcon (by decide), fun hcon => absurd hcon h0⟩,
      ⟨fun hcon => absurd hcon (by decide), fun hcon => absurd hcon.2 h5⟩,
      ⟨fun _ => not_lt.mp h5, fun _ => rfl⟩⟩

/-- C7 witness: the percentage three is in scope of the theorem and is
classified WARNING (where the claimed rule with any positive warning
cutoff above three would say PASS). -/
theorem c7_null_classification_witness :
    (0 : ℚ) ≤ 3 ∧ (classifyNullPercentage 3 = .WARNING ↔
      0 < (3 : ℚ) ∧ (3 : ℚ) < 5) := by
  exact ⟨by norm_num, (c7_null_classification 3 (by norm_num)).2.1⟩

/-- Auxiliary: the null-percentage classifier is non-improving. -/
theorem classifyNull_mono (p q : ℚ) (hp : 0 ≤ p) (hpq : p ≤ q) :
    statusRank (classifyNullPercentage q) ≤ statusRank (classifyNullPercentage p) := by
  unfold classifyNullPercentage
  by_cases hq0 : q = 0
  · have hp0 : p = 0 := le_antisymm (by linarith) hp
    simp [hq0, hp0]
  · by_cases hp0 : p = 0
    · simp only [hq0, hp0, if_true, if_false]
      split_ifs <;> simp [statusRank]
    · by_cases hp5 : p < 5
      · simp only [hq0, hp0, hp5, if_true, if_false]
        split_ifs <;> simp [statusRank]
      · have hq5 : ¬ q < 5 := by
          intro h
          exact hp5 (lt_of_le_of_lt hpq h)
        simp [hq0, hp0, hp5, hq5, statusRank]

/-- Auxiliary: the unmapped-percentage classifier is non-improving. -/
theorem classifyUnmapped_mono (p q : ℚ) (hpq : p ≤ q) :
    statusRank (classifyUnmappedPercentage q) ≤
      statusRank (classifyUnmappedPercentage p) := by
  unfold classifyUnmappedPercentage
  by_cases hp5 : p < 5
  · simp only [hp5, if_true]
    split_ifs <;> simp [statusRank]
  · have hq5 : ¬ q < 5 := by
      intro h
      exact hp5 (lt_of_le_of_lt hpq h)
    by_cases hp15 : p < 15
    · simp only [hp5, hp15, hq5, if_true, if_false]
      split_ifs <;> simp [statusRank]
    · have hq15 : ¬ q < 15 := by
        intro h
        exact hp15 (lt_of_le_of_lt hpq h)
      simp [hp5, hp15, hq5, hq15, statusRank]

/-- C8: for both the completeness null-percentage classifier and the
concept-mapping unmapped-percentage classifier, increasing the bad-data
percentage never improves the status (PASS ranks above WARNING, which
ranks above FAIL). -/
theorem c8_classification_monotone (p q : ℚ) (hp : 0 ≤ p) (hpq : p ≤ q) :
    statusRank (classifyNullPercentage q) ≤
      statusRank (classifyNullPercentage p) ∧
    statusRank (classifyUnmappedPercentage q) ≤
      statusRank (classifyUnmappedPercentage p) :=
  ⟨classifyNull_mono p q hp hpq, classifyUnmapped_mono p q hpq⟩

/-- C8 witness: the pair of percentages one and seven is in scope and the
status degrades from WARNING toward FAIL as the percentage rises. -/
theorem c8_classification_monotone_witness :
    (0 : ℚ) ≤ 1 ∧ (1 : ℚ) ≤ 7 ∧
    (statusRank (classifyNullPercentage 7) ≤
       statusRank (classifyNullPercentage 1) ∧
     statusRank (classifyUnmappedPercentage 7) ≤
       statusRank (classifyUnmappedPercentage 1)) := by
  exact ⟨by norm_num, by norm_num,
    c8_classification_monotone 1 7 (by norm_num) (by norm_num)⟩

/-- Auxiliary: bind on a successful Except value. -/
theorem exBind_ok {α β : Type} (a : α) (f : α → Except String β) :
    (Except.ok a >>= f) = f a := rfl

/-- Auxiliary: bind on a failed Except value. -/
theorem exBind_error {α β : Type} (e : String) (f : α → Except String β) :
    ((Except.error e : Except String α) >>= f) = Except.error e := rfl

/-- Auxiliary: pure into Except. -/
theorem exPure {α : Type} (a : α) : (pure a : Except String α) = Except.ok a := rfl

/-- Auxiliary: on a frame whose counted column reads as nonnegative numbers,
the positive-row filter either returns the empty frame with total zero, or a
nonempty frame whose column sum is positive, matching a nonzero total; the
kept rows are rows of the original frame with positive readings. -/
theorem filterGt_classify (c : String) :
    ∀ (F : Frame) (vals : List ℚ), colNums c F = .ok vals →
    (∀ v ∈ vals, 0 ≤ v) →
    (filterGt c F = .ok [] ∧ vals.sum = 0) ∨
    (∃ F2 t, filterGt c F = .ok F2 ∧ F2 ≠ [] ∧ sumCol c F2 = .ok t ∧ 0 < t ∧
      vals.sum ≠ 0 ∧ ∀ r ∈ F2, r ∈ F ∧ ∃ v, r.num c = .ok v ∧ 0 < v) := by
  intro F
  induction F with
  | nil =>
    intro vals h _
    rw [colNums] at h
    cases h
    exact Or.inl ⟨rfl, rfl⟩
  | cons r rs ih =>
    intro vals h hnn
    rw [colNums] at h
    cases hv : r.num c with
    | error e =>
      rw [hv, exBind_error] at h
      cases h
    | ok v =>
      rw [hv, exBind_ok] at h
      cases hvs : colNums c rs with
      | error e =>
        rw [hvs, exBind_error] at h
        cases h
      | ok vs =>
        rw [hvs, exBind_ok, exPure] at h
        cases h
        have hnv : 0 ≤ v := hnn v (by simp)
        have hnn2 : ∀ x ∈ vs, 0 ≤ x := fun x hx =>
          hnn x (List.mem_cons_of_mem _ hx)
        rcases ih vs hvs hnn2 with ⟨hfe, hsum⟩ |
          ⟨F2, t, hf, hne, hs, ht, hvsne, hmem⟩
        · by_cases hv0 : 0 < v
          · refine Or.inr ⟨[r], v + 0, ?_, by simp, ?_, by linarith, ?_, ?_⟩
            · rw [filterGt, hv, exBind_ok, hfe, exBind_ok]
              simp [hv0, exPure]
            · rw [sumCol, hv, exBind_ok, sumCol, exBind_ok, exPure]
            · simp [hsum]
              linarith
            · intro x hx
              simp only [List.mem_singleton] at hx
              subst hx
              exact ⟨by simp, v, hv, hv0⟩
          · have hv0' : v = 0 := le_antisymm (not_lt.mp hv0) hnv
            refine Or.inl ⟨?_, ?_⟩
            · rw [filterGt, hv, exBind_ok, hfe, exBind_ok]
              simp [hv0, exPure]
            · simp [hsum, hv0']
        · have hvs0 : 0 < vs.sum :=
            lt_of_le_of_ne (List.sum_nonneg hnn2) (Ne.symm hvsne)
          by_cases hv0 : 0 < v
          · refine Or.inr ⟨r :: F2, v + t, ?_, by simp, ?_, by linarith, ?_, ?_⟩
            · rw [filterGt, hv, exBind_ok, hf, exBind_ok]
              simp [hv0, exPure]
            · rw [sumCol, hv, exBind_ok, hs, exBind_ok, exPure]
            · simp only [List.sum_cons]
              intro hcon
              linarith
            · intro x hx
              rcases List.mem_cons.mp hx with hx | hx
              · subst hx
                exact ⟨by simp, v, hv, hv0⟩
              · obtain ⟨hxrs, hx2⟩ := hmem x hx
                exact ⟨List.mem_cons_of_mem _ hxrs, hx2⟩
          · have hv0' : v = 0 := le_antisymm (not_lt.mp hv0) hnv
            refine Or.inr ⟨F2, t, ?_, hne, hs, ht, ?_, ?_⟩
            · rw [filterGt, hv, exBind_ok, hf, exBind_ok]
              simp [hv0, exPure]
            · simp only [List.sum_cons, hv0', zero_add]
              exact hvsne
            · intro x hx
              obtain ⟨hxrs, hx2⟩ := hmem x hx
              exact ⟨List.mem_cons_of_mem _ hxrs, hx2⟩

/-- Auxiliary: building the future-dates sub-records succeeds on rows that
carry the three expected columns. -/
theorem futureSubs_ok :
    ∀ F2 : Frame,
      (∀ r ∈ F2, (r.lookup "table_name").isSome ∧
        (r.lookup "date_field").isSome ∧
        ∃ v, r.num "future_count" = .ok v) →
      ∃ subs, futureSubs F2 = .ok subs := by
  intro F2
  induction F2 with
  | nil => exact fun _ => ⟨[], rfl⟩
  | cons r rs ih =>
    intro h
    obtain ⟨ht, hd, v, hv⟩ := h r (by simp)
    obtain ⟨subs, hsubs⟩ := ih (fun x hx => h x (List.mem_cons_of_mem _ hx))
    obtain ⟨tv, htv⟩ := Option.isSome_iff_exists.mp ht
    obtain ⟨dv, hdv⟩ := Option.isSome_iff_exists.mp hd
    refine ⟨⟨[("table", tv), ("date_field", dv), ("future_count", .vRat v)],
      some (if 0 < v then Status.FAIL else Status.PASS), none⟩ :: subs, ?_⟩
    rw [futureSubs,
      show r.cell "table_name" = .ok tv by simp [Row.cell, htv],
      exBind_ok,
      show r.cell "date_field" = .ok dv by simp [Row.cell, hdv],
      exBind_ok, hv, exBind_ok, hsubs, exBind_ok, exPure]

/-- C6: the temporal future-dates check never yields WARNING, and whenever
the future-dates query returns a well-formed frame of nonnegative per-table
counts, the check yields PASS exactly when the total future-date count is
zero and FAIL exactly when it is nonzero. -/
theorem c6_future_dates_zero_tolerance :
    (∀ db : DB, (checkFutureDates db).1.status ≠ .WARNING) ∧
    (∀ (db : DB) (F : Frame) (vals : List ℚ),
      db.executeQuery getFutureDatesCheckQuery = .ok F →
      colNums "future_count" F = .ok vals →
      (∀ v ∈ vals, 0 ≤ v) →
      (∀ r ∈ F, (r.lookup "table_name").isSome ∧
        (r.lookup "date_field").isSome) →
      (((checkFutureDates db).1.status = .PASS ↔ vals.sum = 0) ∧
       ((checkFutureDates db).1.status = .FAIL ↔ vals.sum ≠ 0))) := by
  constructor
  · intro db
    unfold checkFutureDates futureDatesBody
    cases hq : db.executeQuery getFutureDatesCheckQuery with
    | error e => simp
    | ok F =>
      by_cases hFe : F.isEmpty
      · simp [hFe]
      · simp only [hFe, if_false, Bool.false_eq_true]
        cases hfil : filterGt "future_count" F with
        | error e => simp [hfil, exBind_error]
        | ok F2 =>
          simp only [hfil, exBind_ok]
          by_cases hF2 : F2.isEmpty
          · simp [hF2, exPure]
          · simp only [hF2, if_false, Bool.false_eq_true]
            cases hsum : sumCol "future_count" F2 with
            | error e => simp [hsum, exBind_error]
            | ok t =>
              simp only [hsum, exBind_ok]
              cases hsubs : futureSubs F2 with
              | error e => simp [hsubs, exBind_error]
              | ok subs =>
                simp only [hsubs, exBind_ok, exPure]
                by_cases ht : 0 < t <;> simp [ht]
  · intro db F vals hq hcol hnn hwf
    rcases filterGt_classify "future_count" F vals hcol hnn with
      ⟨hfe, hsum⟩ | ⟨F2, t, hf, hne, hs, ht, hvne, hmem⟩
    · by_cases hFe : F.isEmpty
      · simp [checkFutureDates, futureDatesBody, hq, hFe, hsum]
      · simp [checkFutureDates, futureDatesBody, hq, hFe, hfe, exBind_ok,
          exPure, hsum]
    · have hF2e : ¬ F2.isEmpty := by
        cases F2 with
        | nil => exact absurd rfl hne
        | cons a l => simp
      have hFe : ¬ F.isEmpty := by
        cases F with
        | nil =>
          rw [colNums] at hcol
          cases hcol
          exact absurd rfl hvne
        | cons a l => simp
      obtain ⟨subs, hsubs⟩ := futureSubs_ok F2 (fun r hr => by
        obtain ⟨hrF, v, hv, hv0⟩ := hmem r hr
        obtain ⟨h1, h2⟩ := hwf r hrF
        exact ⟨h1, h2, v, hv⟩)
      simp [checkFutureDates, futureDatesBody, hq, hFe, hf, hF2e, hne, hs,
        hsubs, exBind_ok, exBind_error, exPure, ht, hvne]

/-- A database answering the future-dates query with one row reporting two
future condition dates. -/
def dbWithFutureDates : DB :=
  ⟨fun q => if q = getFutureDatesCheckQuery then
      .ok [[("table_name", .vStr "condition_occurrence"),
            ("date_field", .vStr "condition_start_date"),
            ("future_count", .vInt 2)]]
    else .ok [],
   fun _ => true, true⟩

/-- C6 witness: on a concrete database reporting two future dates the
hypotheses hold and the check FAILs. -/
theorem c6_future_dates_witness :
    (checkFutureDates dbWithFutureDates).1.status = .FAIL := by
  have h := c6_future_dates_zero_tolerance.2 dbWithFutureDates
    [[("table_name", .vStr "condition_occurrence"),
      ("date_field", .vStr "condition_start_date"),
      ("future_count", .vInt 2)]]
    [((2 : Int) : ℚ)] rfl rfl
    (by intro v hv; simp at hv; subst hv; norm_num)
    (by decide)
  refine h.2.mpr ?_
  norm_num

/-- C10: when the underlying query engine fails on the future-dates query,
the connection layer swallows the failure and hands the checker an empty
frame, so the future-dates check reports a clean PASS with a zero total and
empty data instead of an ERROR. -/
theorem c10_failed_query_reports_pass (raw : String → Except String Frame)
    (te : String → Bool) (tc : Bool) (e : String)
    (h : raw getFutureDatesCheckQuery = .error e) :
    (checkFutureDates (omopDB raw te tc)).1 =
      { status := .PASS, message := some "No future dates found",
        data := [], metrics := [("total_future_dates", .vInt 0)],
        error := none } := by
  simp [checkFutureDates, futureDatesBody, omopDB, omopExecuteQuery, h]

/-- C10 witness: a concrete always-failing query engine satisfies the
hypothesis and the check reports PASS with zero total. -/
theorem c10_failed_query_reports_pass_witness :
    ((fun _ : String => (Except.error "Query execution failed" :
        Except String Frame)) getFutureDatesCheckQuery =
      Except.error "Query execution failed") ∧
    (checkFutureDates (omopDB (fun _ => .error "Query execution failed")
        (fun _ => true) true)).1 =
      { status := .PASS, message := some "No future dates found",
        data := [], metrics := [("total_future_dates", .vInt 0)],
        error := none } :=
  ⟨rfl, c10_failed_query_reports_pass _ _ _ "Query execution failed" rfl⟩

/-- C2: with a reachable database, a failure raised by the foreign-key
query inside the referential checker is caught and converted by the error
wrapper into a result with status ERROR and the error detail populated,
while the results map still carries every sibling check's own result
(orphaned_records gets exactly the result it computes on its own) and
`run_checks` returns the full map rather than raising. -/
theorem c2_error_isolation (db : DB) (e : String)
    (hc : validateDatabaseConnection db = true)
    (hq : db.executeQuery getForeignKeyViolationsQuery = .error e) :
    ∃ rs lg,
      runChecksReferential db = (.results rs, lg) ∧
      rs.lookup "foreign_key_violations" =
        some (handleError "foreign_key_violations" e) ∧
      (handleError "foreign_key_violations" e).status = .ERROR ∧
      (handleError "foreign_key_violations" e).error = some e ∧
      rs.lookup "orphaned_records" = some (checkOrphanedRecords db).1 := by
  have hfk : (checkForeignKeyViolations db).1 =
      handleError "foreign_key_violations" e := by
    simp [checkForeignKeyViolations, fkViolationsBody, hq]
  have hrun : runChecksReferential db =
      (.results
        [("foreign_key_violations", (checkForeignKeyViolations db).1),
         ("orphaned_records", (checkOrphanedRecords db).1),
         ("person_id_consistency", (checkPersonIdConsistency db).1),
         ("visit_relationships", (checkVisitRelationships db).1),
         ("concept_integrity", (checkConceptIntegrity db).1)],
       (checkForeignKeyViolations db).2 ++ (checkOrphanedRecords db).2 ++
         (checkPersonIdConsistency db).2 ++ (checkVisitRelationships db).2 ++
         (checkConceptIntegrity db).2) := by
    unfold runChecksReferential
    rw [hc]
    rfl
  refine ⟨_, _, hrun, ?_, rfl, rfl, ?_⟩
  · rw [← hfk]
    simp [List.lookup]
  · simp [List.lookup]

/-- A database that is reachable but whose foreign-key query raises. -/
def dbFkFailing : DB :=
  ⟨fun q => if q = getForeignKeyViolationsQuery then .error "connection lost"
    else .ok [],
   fun _ => true, true⟩

/-- C2 witness: on the concrete failing database the hypotheses hold and
the isolation conclusion follows. -/
theorem c2_error_isolation_witness :
    validateDatabaseConnection dbFkFailing = true ∧
    dbFkFailing.executeQuery getForeignKeyViolationsQuery =
      .error "connection lost" ∧
    ∃ rs lg,
      runChecksReferential dbFkFailing = (.results rs, lg) ∧
      rs.lookup "foreign_key_violations" =
        some (handleError "foreign_key_violations" "connection lost") ∧
      (handleError "foreign_key_violations" "connection lost").status = .ERROR ∧
      (handleError "foreign_key_violations" "connection lost").error =
        some "connection lost" ∧
      rs.lookup "orphaned_records" =
        some (checkOrphanedRecords dbFkFailing).1 :=
  ⟨rfl, rfl, c2_error_isolation dbFkFailing "connection lost" rfl rfl⟩

/-- Auxiliary: one critical-field iteration always issues exactly its query. -/
theorem cfStep_log (db : DB) (c : CriticalCheck) :
    (cfStep db c).2.2 = [c.query] := by
  unfold cfStep
  cases db.executeQuery c.query with
  | error e => rfl
  | ok result =>
    by_cases h : result.isEmpty
    · simp [h]
    · simp only [h, Bool.false_eq_true, if_false]
      cases result.num0 "null_count" with
      | error e => rfl
      | ok nc => rfl

/-- Auxiliary: the critical-fields loop issues exactly the listed queries,
in order, regardless of the database. -/
theorem cfLoop_log (db : DB) :
    ∀ cs : List CriticalCheck,
      (cfLoop db cs).2.2 = cs.map CriticalCheck.query := by
  intro cs
  induction cs with
  | nil => rfl
  | cons c cs ih =>
    show (cfStep db c).2.2 ++ (cfLoop db cs).2.2 = _
    rw [cfStep_log, ih]
    rfl

/-- C3 (amended): the missing-table guard is not uniform across checks.
The referential visit-relationships and concept-integrity checks do guard:
with the table absent they return WARNING, the message names the missing
table, and zero queries are issued. But person-id consistency returns
ERROR (not WARNING) when the person table is absent (still with zero
queries), and the completeness critical-fields check has no guard at all:
it issues its five queries against any database. -/
theorem c3_missing_table_guard :
    (∀ db : DB, db.tableExists "visit_occurrence" = false →
      checkVisitRelationships db =
        ({ status := .WARNING, message := some "Visit_occurrence table not found",
           data := [], metrics := [], error := none }, [])) ∧
    (∀ db : DB, db.tableExists "concept" = false →
      checkConceptIntegrity db =
        ({ status := .WARNING,
           message := some "Concept table not found - skipping concept integrity check",
           data := [], metrics := [], error := none }, [])) ∧
    (∀ db : DB, db.tableExists "person" = false →
      checkPersonIdConsistency db =
        ({ status := .ERROR, message := some "Person table not found",
           data := [], metrics := [], error := none }, [])) ∧
    (∀ db : DB, (checkCriticalFields db).2 =
      criticalChecks.map CriticalCheck.query) := by
  refine ⟨?_, ?_, ?_, ?_⟩
  · intro db h
    simp [checkVisitRelationships, tableExists, h]
  · intro db h
    simp [checkConceptIntegrity, tableExists, h]
  · intro db h
    simp [checkPersonIdConsistency, tableExists, h]
  · intro db
    show (cfLoop db criticalChecks).2.2 = _
    exact cfLoop_log db criticalChecks

/-- C3 counterexample: on a database where every table is absent, the
cited person-id-consistency check returns ERROR, not the claimed WARNING,
and the cited critical-fields check still issues its five queries instead
of the claimed zero. -/
theorem c3_cex_guard_not_uniform :
    (checkPersonIdConsistency emptyDB).1.status = .ERROR ∧
    ¬ (checkPersonIdConsistency emptyDB).1.status = .WARNING ∧
    (checkCriticalFields emptyDB).2.length = 5 := by
  decide

/-- C3 witness: the guard facts applied to the concrete all-absent
database. -/
theorem c3_missing_table_guard_witness :
    emptyDB.tableExists "visit_occurrence" = false ∧
    emptyDB.tableExists "person" = false ∧
    checkVisitRelationships emptyDB =
      ({ status := .WARNING, message := some "Visit_occurrence table not found",
         data := [], metrics := [], error := none }, []) ∧
    checkPersonIdConsistency emptyDB =
      ({ status := .ERROR, message := some "Person table not found",
         data := [], metrics := [], error := none }, []) :=
  ⟨rfl, rfl, c3_missing_table_guard.1 emptyDB rfl,
   c3_missing_table_guard.2.2.1 emptyDB rfl⟩

/-- Auxiliary: a sub-record without an error entry satisfies the invariant. -/
theorem subInv_noError (f : List (String × Val)) (st : Option Status) :
    SubInv ⟨f, st, none⟩ :=
  ⟨fun h => absurd rfl h, fun _ => rfl⟩

/-- Auxiliary: an ERROR sub-record with error detail satisfies the invariant. -/
theorem subInv_errSub (f : List (String × Val)) (e : String) :
    SubInv ⟨f, some .ERROR, some e⟩ :=
  ⟨fun _ => rfl, fun h => nomatch h⟩

/-- Auxiliary: a check result without an error entry satisfies the invariant. -/
theorem resultInv_noError (st : Status) (msg : Option String)
    (data : List SubRec) (metrics : List (String × Val)) :
    ResultInv ⟨st, msg, data, metrics, none⟩ :=
  ⟨fun h => absurd rfl h, fun _ => rfl⟩

/-- Auxiliary: an ERROR check result with error detail satisfies the
invariant. -/
theorem resultInv_err (msg : Option String) (data : List SubRec)
    (metrics : List (String × Val)) (e : String) :
    ResultInv ⟨.ERROR, msg, data, metrics, some e⟩ :=
  ⟨fun _ => rfl, fun h => nomatch h⟩

/-- Auxiliary: the spec-modelled error wrapper always produces an
invariant-respecting result. -/
theorem checkInv_handleError (n e : String) : CheckInv (handleError n e) :=
  ⟨resultInv_err _ _ _ _, fun s hs => absurd hs (List.not_mem_nil s)⟩

/-- Auxiliary: a step loop preserves the sub-record invariant when every
step does. -/
theorem stepLoop_inv {α : Type} (step : α → Option SubRec × ℚ × List String)
    (hstep : ∀ c s, (step c).1 = some s → SubInv s) :
    ∀ cs : List α, ∀ s ∈ (stepLoop step cs).1, SubInv s := by
  intro cs
  induction cs with
  | nil =>
    intro s hs
    simp [stepLoop] at hs
  | cons c cs ih =>
    intro s hs
    have hs2 : s ∈ (match (step c).1 with
      | some s0 => s0 :: (stepLoop step cs).1
      | none => (stepLoop step cs).1) := hs
    cases hos : (step c).1 with
    | none =>
      rw [hos] at hs2
      exact ih s hs2
    | some s0 =>
      rw [hos] at hs2
      rcases List.mem_cons.mp hs2 with h | h
      · subst h
        exact hstep c _ hos
      · exact ih s h

/-- Auxiliary: every sub-record emitted by a critical-fields iteration
respects the invariant. -/
theorem cfStep_inv (db : DB) :
    ∀ c s, (cfStep db c).1 = some s → SubInv s := by
  intro c s h
  unfold cfStep at h
  repeat' split at h
  all_goals try simp at h
  all_goals try subst h
  all_goals first
    | exact subInv_errSub _ _
    | exact subInv_noError _ _

/-- Auxiliary: every sub-record emitted by an orphan-check iteration
respects the invariant. -/
theorem orphanStep_inv (db : DB) :
    ∀ c s, (orphanStep db c).1 = some s → SubInv s := by
  intro c s h
  unfold orphanStep at h
  repeat' split at h
  all_goals try simp at h
  all_goals try subst h
  all_goals first
    | exact subInv_errSub _ _
    | exact subInv_noError _ _

/-- Auxiliary: every sub-record emitted by a concept-integrity iteration
respects the invariant. -/
theorem conceptStep_inv (db : DB) :
    ∀ c s, (conceptStep db c).1 = some s → SubInv s := by
  intro c s h
  unfold conceptStep conceptErrorSub at h
  repeat' split at h
  all_goals try simp at h
  all_goals try subst h
  all_goals first
    | exact subInv_errSub _ _
    | exact subInv_noError _ _

/-- Auxiliary: every sub-record emitted by an unmapped-concepts iteration
respects the invariant. -/
theorem unmappedStep_inv (db : DB) :
    ∀ c s, (unmappedStep db c).1 = some s → SubInv s := by
  intro c s h
  unfold unmappedStep at h
  repeat' split at h
  all_goals try simp at h
  all_goals try subst h
  all_goals first
    | exact subInv_errSub _ _
    | exact subInv_noError _ _

/-- Auxiliary: every sub-record emitted by a per-domain completeness block
respects the invariant. -/
theorem domainStep_inv (db : DB) (domain q totalCol : String) :
    ∀ s, (domainStep db domain q totalCol).1 = some s → SubInv s := by
  intro s h
  unfold domainStep at h
  repeat' split at h
  all_goals try simp at h
  all_goals try subst h
  all_goals first
    | exact subInv_errSub _ _
    | exact subInv_noError _ _

/-- Auxiliary: every sub-record emitted by a table-completeness iteration
respects the invariant. -/
theorem tcStep_inv (db : DB) :
    ∀ row s, (tcStep db row).1 = .ok (some s) → SubInv s := by
  intro row s h
  unfold tcStep at h
  repeat' split at h
  all_goals try simp at h
  all_goals try subst h
  all_goals first
    | exact subInv_errSub _ _
    | exact subInv_noError _ _

/-- Auxiliary: the table-completeness loop only emits invariant-respecting
sub-records. -/
theorem tcLoop_inv (db : DB) :
    ∀ (rows : Frame) (subs : List SubRec) (lg : List String),
      tcLoop db rows = (.ok subs, lg) → ∀ s ∈ subs, SubInv s := by
  intro rows
  induction rows with
  | nil =>
    intro subs lg h s hs
    rw [tcLoop] at h
    injection h with h1 h2
    injection h1 with h1
    subst h1
    cases hs
  | cons row rest ih =>
    intro subs lg h s hs
    rw [tcLoop] at h
    rcases hstep : tcStep db row with ⟨os, lg1⟩
    rw [hstep] at h
    cases os with
    | error e => simp at h
    | ok osub =>
      rcases hrest : tcLoop db rest with ⟨res2, lg2⟩
      rw [hrest] at h
      cases res2 with
      | error e => simp at h
      | ok subs2 =>
        injection h with h1 h2
        injection h1 with h1
        subst h1
        cases osub with
        | none => exact ih subs2 lg2 hrest s hs
        | some s0 =>
          rcases List.mem_cons.mp hs with h | h
          · subst h
            exact tcStep_inv db row _ (by rw [hstep])
          · exact ih subs2 lg2 hrest s h

/-- Auxiliary: the future-dates sub-record builder only emits
invariant-respecting sub-records. -/
theorem futureSubs_inv :
    ∀ (F : Frame) (subs : List SubRec), futureSubs F = .ok subs →
      ∀ s ∈ subs, SubInv s := by
  intro F
  induction F with
  | nil =>
    intro subs h s hs
    rw [futureSubs] at h
    injection h with h1
    subst h1
    cases hs
  | cons r rest ih =>
    intro subs h s hs
    rw [futureSubs] at h
    cases h1 : r.cell "table_name" with
    | error e => rw [h1, exBind_error] at h; simp at h
    | ok tn =>
      rw [h1, exBind_ok] at h
      cases h2 : r.cell "date_field" with
      | error e => rw [h2, exBind_error] at h; simp at h
      | ok df =>
        rw [h2, exBind_ok] at h
        cases h3 : r.num "future_count" with
        | error e => rw [h3, exBind_error] at h; simp at h
        | ok fc =>
          rw [h3, exBind_ok] at h
          cases h4 : futureSubs rest with
          | error e => rw [h4, exBind_error] at h; simp at h
          | ok others =>
            rw [h4, exBind_ok, exPure] at h
            injection h with h1
            subst h1
            rcases List.mem_cons.mp hs with h | h
            · subst h
              exact subInv_noError _ _
            · exact ih others h4 s h

/-- Auxiliary: the foreign-key sub-record builder only emits
invariant-respecting sub-records. -/
theorem fkSubs_inv :
    ∀ (F : Frame) (subs : List SubRec), fkSubs F = .ok subs →
      ∀ s ∈ subs, SubInv s := by
  intro F
  induction F with
  | nil =>
    intro subs h s hs
    rw [fkSubs] at h
    injection h with h1
    subst h1
    cases hs
  | cons r rest ih =>
    intro subs h s hs
    rw [fkSubs] at h
    cases h1 : r.cell "relationship" with
    | error e => rw [h1, exBind_error] at h; simp at h
    | ok rel =>
      rw [h1, exBind_ok] at h
      cases h2 : r.num "violation_count" with
      | error e => rw [h2, exBind_error] at h; simp at h
      | ok vc =>
        rw [h2, exBind_ok] at h
        cases h3 : fkSubs rest with
        | error e => rw [h3, exBind_error] at h; simp at h
        | ok others =>
          rw [h3, exBind_ok, exPure] at h
          injection h with h1
          subst h1
          rcases List.mem_cons.mp hs with h | h
          · subst h
            exact subInv_noError _ _
          · exact ih others h3 s h

/-- Auxiliary: a successful future-dates body yields an
invariant-respecting result. -/
theorem fdBody_inv (db : DB) (r : CheckResult) (lg : List String)
    (h : futureDatesBody db = (.ok r, lg)) : CheckInv r := by
  unfold futureDatesBody at h
  split at h
  · simp at h
  · rename_i F hqeq
    split at h
    · injection h with h1 h2
      injection h1 with h1
      subst h1
      exact ⟨resultInv_noError _ _ _ _, fun s hs => absurd hs (List.not_mem_nil s)⟩
    · cases hf : filterGt "future_count" F with
      | error e => rw [hf, exBind_error] at h; simp at h
      | ok F2 =>
        rw [hf, exBind_ok] at h
        by_cases hF2 : F2.isEmpty
        · rw [if_pos hF2, exPure] at h
          injection h with h1 h2
          injection h1 with h1
          subst h1
          exact ⟨resultInv_noError _ _ _ _, fun s hs => absurd hs (List.not_mem_nil s)⟩
        · rw [if_neg hF2] at h
          cases hsc : sumCol "future_count" F2 with
          | error e => rw [hsc, exBind_error] at h; simp at h
          | ok t =>
            rw [hsc, exBind_ok] at h
            cases hsubs : futureSubs F2 with
            | error e => rw [hsubs, exBind_error] at h; simp at h
            | ok subs =>
              rw [hsubs, exBind_ok, exPure] at h
              injection h with h1 h2
              injection h1 with h1
              subst h1
              exact ⟨resultInv_noError _ _ _ _,
                fun s hs => futureSubs_inv F2 subs hsubs s hs⟩

/-- Auxiliary: a successful foreign-key body yields an
invariant-respecting result. -/
theorem fkBody_inv (db : DB) (r : CheckResult) (lg : List String)
    (h : fkViolationsBody db = (.ok r, lg)) : CheckInv r := by
  unfold fkViolationsBody at h
  split at h
  · simp at h
  · rename_i F hqeq
    split at h
    · injection h with h1 h2
      injection h1 with h1
      subst h1
      exact ⟨resultInv_noError _ _ _ _, fun s hs => absurd hs (List.not_mem_nil s)⟩
    · cases hf : filterGt "violation_count" F with
      | error e => rw [hf, exBind_error] at h; simp at h
      | ok F2 =>
        rw [hf, exBind_ok] at h
        by_cases hF2 : F2.isEmpty
        · rw [if_pos hF2, exPure] at h
          injection h with h1 h2
          injection h1 with h1
          subst h1
          exact ⟨resultInv_noError _ _ _ _, fun s hs => absurd hs (List.not_mem_nil s)⟩
        · rw [if_neg hF2] at h
          cases hsc : sumCol "violation_count" F2 with
          | error e => rw [hsc, exBind_error] at h; simp at h
          | ok t =>
            rw [hsc, exBind_ok] at h
            cases hsubs : fkSubs F2 with
            | error e => rw [hsubs, exBind_error] at h; simp at h
            | ok subs =>
              rw [hsubs, exBind_ok, exPure] at h
              injection h with h1 h2
              injection h1 with h1
              subst h1
              exact ⟨resultInv_noError _ _ _ _,
                fun s hs => fkSubs_inv F2 subs hsubs s hs⟩

/-- Auxiliary: a successful person-completeness body yields an
invariant-respecting result. -/
theorem pcBody_inv (db : DB) (r : CheckResult) (lg : List String)
    (h : personCompletenessBody db = (.ok r, lg)) : CheckInv r := by
  unfold personCompletenessBody at h
  split at h
  · simp at h
  · rename_i result hqeq
    split at h
    · injection h with h1 h2
      injection h1 with h1
      subst h1
      exact ⟨resultInv_noError _ _ _ _, fun s hs => absurd hs (List.not_mem_nil s)⟩
    · rename_i row tail
      cases h1 : row.cell "total_persons" with
      | error e => rw [h1, exBind_error] at h; simp at h
      | ok tpVal =>
        rw [h1, exBind_ok] at h
        by_cases h2 : tpVal = Val.vInt 0 ∨ tpVal = Val.vRat 0
        · rw [if_pos h2, exPure] at h
          injection h with hx hy
          injection hx with hx
          subst hx
          exact ⟨resultInv_noError _ _ _ _, fun s hs => absurd hs (List.not_mem_nil s)⟩
        · rw [if_neg h2] at h
          cases h3 : ((row.lookup "completeness_score").getD (Val.vInt 0)).toNum with
          | error e => rw [h3, exBind_error] at h; simp at h
          | ok cs =>
            rw [h3, exBind_ok] at h
            cases h4 : tpVal.toNum with
            | error e => rw [h4, exBind_error] at h; simp at h
            | ok tp =>
              rw [h4, exBind_ok] at h
              cases h5 : row.num "missing_gender" with
              | error e => rw [h5, exBind_error] at h; simp at h
              | ok mg =>
                rw [h5, exBind_ok] at h
                cases h6 : row.num "missing_birth_year" with
                | error e => rw [h6, exBind_error] at h; simp at h
                | ok mby =>
                  rw [h6, exBind_ok] at h
                  cases h7 : row.num "missing_race" with
                  | error e => rw [h7, exBind_error] at h; simp at h
                  | ok mr =>
                    rw [h7, exBind_ok] at h
                    cases h8 : row.num "missing_ethnicity" with
                    | error e => rw [h8, exBind_error] at h; simp at h
                    | ok met =>
                      rw [h8, exBind_ok] at h
                      cases h9 : row.num "invalid_birth_year_low" with
                      | error e => rw [h9, exBind_error] at h; simp at h
                      | ok ibl =>
                        rw [h9, exBind_ok] at h
                        cases h10 : row.num "invalid_birth_year_high" with
                        | error e => rw [h10, exBind_error] at h; simp at h
                        | ok ibh =>
                          rw [h10, exBind_ok] at h
                          cases h11 : row.num "unrealistic_age" with
                          | error e => rw [h11, exBind_error] at h; simp at h
                          | ok ua =>
                            rw [h11, exBind_ok] at h
                            simp only [exPure, Prod.mk.injEq,
                              Except.ok.injEq] at h
                            obtain ⟨h1x, -⟩ := h
                            subst h1x
                            refine ⟨resultInv_noError _ _ _ _, ?_⟩
                            intro s hs
                            simp only [List.mem_singleton] at hs
                            subst hs
                            exact subInv_noError _ _

/-- Auxiliary: every detail sub-record of the person-id detail block
respects the invariant. -/
theorem pidDetailBlock_inv (db : DB) (mp : ℚ) (ets : List String) :
    ∀ s ∈ (pidDetailBlock db mp ets).1, SubInv s := by
  intro s hs
  unfold pidDetailBlock at hs
  split at hs
  · split at hs
    · simp at hs
    · simp only [List.mem_map] at hs
      obtain ⟨r0, -, hr⟩ := hs
      subst hr
      exact subInv_noError _ _
  · simp at hs

/-- Auxiliary: a successful person-id-consistency body yields an
invariant-respecting result. -/
theorem pidBody_inv (db : DB) (row : Row) (ets : List String)
    (r : CheckResult) (lg : List String)
    (h : pidBody db row ets = (.ok r, lg)) : CheckInv r := by
  unfold pidBody at h
  split at h
  · simp at h
  · split at h
    · simp at h
    · split at h
      · simp at h
      · injection h with h1 h2
        injection h1 with h1
        subst h1
        refine ⟨resultInv_noError _ _ _ _, ?_⟩
        intro s hs
        rcases List.mem_cons.mp hs with hx | hx
        · subst hx
          exact subInv_noError _ _
        · exact pidDetailBlock_inv _ _ _ s hx

/-- Auxiliary: a successful visit-relationships body yields an
invariant-respecting result. -/
theorem vrBody_inv (db : DB) (r : CheckResult) (lg : List String)
    (h : visitRelationshipsBody db = (.ok r, lg)) : CheckInv r := by
  unfold visitRelationshipsBody at h
  split at h
  · simp at h
  · injection h with h1 h2
    injection h1 with h1
    subst h1
    exact ⟨resultInv_noError _ _ _ _, fun s hs => absurd hs (List.not_mem_nil s)⟩
  · rename_i row tail
    split at h
    · simp at h
    · injection h with h1 h2
      injection h1 with h1
      subst h1
      refine ⟨resultInv_noError _ _ _ _, ?_⟩
      intro s hs
      simp only [List.mem_singleton] at hs
      subst hs
      exact subInv_noError _ _

/-- Auxiliary: the table-completeness check respects the invariant. -/
theorem checkInv_tableCompleteness (db : DB) :
    CheckInv (checkTableCompleteness db).1 := by
  unfold checkTableCompleteness
  split
  · exact ⟨resultInv_err _ _ _ _, fun s hs => absurd hs (List.not_mem_nil s)⟩
  · rename_i tablesDf hq
    split
    · exact ⟨resultInv_noError _ _ _ _, fun s hs => absurd hs (List.not_mem_nil s)⟩
    · split
      · exact ⟨resultInv_err _ _ _ _, fun s hs => absurd hs (List.not_mem_nil s)⟩
      · rename_i subs lg hloop
        exact ⟨resultInv_noError _ _ _ _,
          fun s hs => tcLoop_inv db tablesDf subs lg hloop s hs⟩

/-- Auxiliary: the critical-fields check respects the invariant. -/
theorem checkInv_criticalFields (db : DB) :
    CheckInv (checkCriticalFields db).1 := by
  refine ⟨resultInv_noError _ _ _ _, ?_⟩
  intro s hs
  exact stepLoop_inv (cfStep db) (cfStep_inv db) criticalChecks s hs

/-- Auxiliary: the person-completeness check respects the invariant. -/
theorem checkInv_personCompleteness (db : DB) :
    CheckInv (checkPersonCompleteness db).1 := by
  unfold checkPersonCompleteness
  split
  · rename_i r lg hb
    exact pcBody_inv db r lg hb
  · exact ⟨resultInv_err _ _ _ _, fun s hs => absurd hs (List.not_mem_nil s)⟩

/-- Auxiliary: the domain-completeness check respects the invariant. -/
theorem checkInv_domainCompleteness (db : DB) :
    CheckInv (checkDomainCompleteness db).1 := by
  refine ⟨resultInv_noError _ _ _ _, ?_⟩
  intro s hs
  have hs2 : s ∈
      ((domainStep db "Condition" domainConditionsQuery "total_conditions").1.toList ++
       (domainStep db "Drug" domainDrugsQuery "total_drugs").1.toList) := hs
  rcases List.mem_append.mp hs2 with hx | hx
  · simp only [Option.mem_toList, Option.mem_def] at hx
    exact domainStep_inv db _ _ _ s hx
  · simp only [Option.mem_toList, Option.mem_def] at hx
    exact domainStep_inv db _ _ _ s hx

/-- Auxiliary: the future-dates check respects the invariant. -/
theorem checkInv_futureDates (db : DB) : CheckInv (checkFutureDates db).1 := by
  unfold checkFutureDates
  split
  · rename_i r lg hb
    exact fdBody_inv db r lg hb
  · exact ⟨resultInv_err _ _ _ _, fun s hs => absurd hs (List.not_mem_nil s)⟩

/-- Auxiliary: the unmapped-concepts check respects the invariant. -/
theorem checkInv_unmappedConcepts (db : DB) :
    CheckInv (checkUnmappedConcepts db).1 := by
  refine ⟨resultInv_noError _ _ _ _, ?_⟩
  intro s hs
  exact stepLoop_inv (unmappedStep db) (unmappedStep_inv db) unmappedQueries s hs

/-- Auxiliary: the foreign-key-violations check respects the invariant. -/
theorem checkInv_fkViolations (db : DB) :
    CheckInv (checkForeignKeyViolations db).1 := by
  unfold checkForeignKeyViolations
  split
  · rename_i r lg hb
    exact fkBody_inv db r lg hb
  · exact checkInv_handleError _ _

/-- Auxiliary: the orphaned-records check respects the invariant. -/
theorem checkInv_orphanedRecords (db : DB) :
    CheckInv (checkOrphanedRecords db).1 := by
  refine ⟨resultInv_noError _ _ _ _, ?_⟩
  intro s hs
  exact stepLoop_inv (orphanStep db) (orphanStep_inv db) orphanChecks s hs

/-- Auxiliary: the person-id-consistency check respects the invariant. -/
theorem checkInv_personIdConsistency (db : DB) :
    CheckInv (checkPersonIdConsistency db).1 := by
  unfold checkPersonIdConsistency
  split
  · exact ⟨resultInv_noError _ _ _ _, fun s hs => absurd hs (List.not_mem_nil s)⟩
  · split
    · exact ⟨resultInv_noError _ _ _ _, fun s hs => absurd hs (List.not_mem_nil s)⟩
    · split
      · exact checkInv_handleError _ _
      · exact ⟨resultInv_noError _ _ _ _, fun s hs => absurd hs (List.not_mem_nil s)⟩
      · rename_i row tail hq
        split
        · rename_i r lg hb
          exact pidBody_inv db row _ r lg hb
        · exact checkInv_handleError _ _

/-- Auxiliary: the visit-relationships check respects the invariant. -/
theorem checkInv_visitRelationships (db : DB) :
    CheckInv (checkVisitRelationships db).1 := by
  unfold checkVisitRelationships
  split
  · exact ⟨resultInv_noError _ _ _ _, fun s hs => absurd hs (List.not_mem_nil s)⟩
  · split
    · rename_i r lg hb
      exact vrBody_inv db r lg hb
    · exact checkInv_handleError _ _

/-- Auxiliary: the concept-integrity check respects the invariant. -/
theorem checkInv_conceptIntegrity (db : DB) :
    CheckInv (checkConceptIntegrity db).1 := by
  unfold checkConceptIntegrity
  split
  · exact ⟨resultInv_noError _ _ _ _, fun s hs => absurd hs (List.not_mem_nil s)⟩
  · refine ⟨resultInv_noError _ _ _ _, ?_⟩
    intro s hs
    exact stepLoop_inv (conceptStep db) (conceptStep_inv db) conceptChecks s hs

/-- Auxiliary: rows mapped into plain sub-records respect the invariant. -/
theorem subInv_plainRows (F : Frame) :
    ∀ s ∈ F.map (fun r => (⟨r, none, none⟩ : SubRec)), SubInv s := by
  intro s hs
  simp only [List.mem_map] at hs
  obtain ⟨r, -, rfl⟩ := hs
  exact subInv_noError _ _

/-- Auxiliary: issue-summary records respect the invariant. -/
theorem subInv_issueSummary (vs : List Val) :
    ∀ s ∈ issueSummarySubs vs, SubInv s := by
  intro s hs
  simp only [issueSummarySubs, List.mem_map] at hs
  obtain ⟨p, -, rfl⟩ := hs
  exact subInv_noError _ _

/-- Auxiliary: the drug summary-statistics record respects the invariant. -/
theorem drugSummaryStats_inv (db : DB) :
    ∀ s ∈ drugSummaryStats db, SubInv s := by
  intro s hs
  unfold drugSummaryStats at hs
  repeat' split at hs
  all_goals first
    | exact absurd hs (List.not_mem_nil s)
    | (simp only [List.mem_singleton] at hs; subst hs; exact subInv_noError _ _)

/-- Auxiliary: the visit-duration detail records respect the invariant. -/
theorem visitDurationDetails_inv (db : DB) :
    ∀ s ∈ visitDurationDetails db, SubInv s := by
  intro s hs
  unfold visitDurationDetails at hs
  split at hs
  · exact absurd hs (List.not_mem_nil s)
  · exact subInv_plainRows _ s hs

/-- Auxiliary: every sub-record built by the events-after-death rows
respects the invariant. -/
theorem eadSubs_inv :
    ∀ (F : Frame) (subs : List SubRec), eadSubs F = .ok subs →
      ∀ s ∈ subs, SubInv s := by
  intro F
  induction F with
  | nil =>
    intro subs h s hs
    rw [eadSubs] at h
    injection h with h1
    subst h1
    cases hs
  | cons r rest ih =>
    intro subs h s hs
    rw [eadSubs] at h
    cases h1 : r.cell "event_type" with
    | error e => rw [h1, exBind_error] at h; simp at h
    | ok et =>
      rw [h1, exBind_ok] at h
      cases h2 : r.num "events_after_death" with
      | error e => rw [h2, exBind_error] at h; simp at h
      | ok ec =>
        rw [h2, exBind_ok] at h
        cases h3 : eadSubs rest with
        | error e => rw [h3, exBind_error] at h; simp at h
        | ok others =>
          rw [h3, exBind_ok, exPure] at h
          injection h with h4
          subst h4
          rcases List.mem_cons.mp hs with h5 | h5
          · subst h5
            exact subInv_noError _ _
          · exact ih others h3 s h5

/-- Auxiliary: every sub-record built by the age-temporal rows respects
the invariant. -/
theorem atSubs_inv :
    ∀ (F : Frame) (subs : List SubRec), atSubs F = .ok subs →
      ∀ s ∈ subs, SubInv s := by
  intro F
  induction F with
  | nil =>
    intro subs h s hs
    rw [atSubs] at h
    injection h with h1
    subst h1
    cases hs
  | cons r rest ih =>
    intro subs h s hs
    rw [atSubs] at h
    cases h1 : r.cell "issue_type" with
    | error e => rw [h1, exBind_error] at h; simp at h
    | ok it =>
      rw [h1, exBind_ok] at h
      cases h2 : r.num "issue_count" with
      | error e => rw [h2, exBind_error] at h; simp at h
      | ok ic =>
        rw [h2, exBind_ok] at h
        cases h3 : atSubs rest with
        | error e => rw [h3, exBind_error] at h; simp at h
        | ok others =>
          rw [h3, exBind_ok, exPure] at h
          injection h with h4
          subst h4
          rcases List.mem_cons.mp hs with h5 | h5
          · subst h5
            exact subInv_noError _ _
          · exact ih others h3 s h5

/-- Auxiliary: every sub-record emitted by a domain-integrity iteration
respects the invariant. -/
theorem diStep_inv (db : DB) :
    ∀ c s, (diStep db c).1 = some s → SubInv s := by
  intro c s h
  unfold diStep at h
  repeat' split at h
  all_goals try simp at h
  all_goals try subst h
  all_goals first
    | exact subInv_errSub _ _
    | exact subInv_noError _ _

/-- Auxiliary: a successful measurement-detail iteration emits only
invariant-respecting sub-records. -/
theorem moDetailStep_inv (db : DB) (row : Row) (subs : List SubRec)
    (lg : List String) (h : moDetailStep db row = .ok (subs, lg)) :
    ∀ s ∈ subs, SubInv s := by
  intro s hs
  unfold moDetailStep at h
  split at h
  · exact absurd h (fun hc => nomatch hc)
  · split at h
    · exact absurd h (fun hc => nomatch hc)
    · split at h
      · injection h with h1
        injection h1 with h2 h3
        subst h2
        exact absurd hs (List.not_mem_nil s)
      · split at h
        · injection h with h1
          injection h1 with h2 h3
          subst h2
          exact absurd hs (List.not_mem_nil s)
        · injection h with h1
          injection h1 with h2 h3
          subst h2
          rcases List.mem_cons.mp hs with h4 | h4
          · subst h4
            exact subInv_noError _ _
          · exact subInv_plainRows _ s h4

/-- Auxiliary: a successful measurement-detail loop emits only
invariant-respecting sub-records. -/
theorem moDetailLoop_inv (db : DB) :
    ∀ (rows : List Row) (subs : List SubRec) (lg : List String),
      moDetailLoop db rows = (.ok subs, lg) → ∀ s ∈ subs, SubInv s := by
  intro rows
  induction rows with
  | nil =>
    intro subs lg h s hs
    rw [moDetailLoop] at h
    injection h with h1 h2
    injection h1 with h1
    subst h1
    cases hs
  | cons row rest ih =>
    intro subs lg h s hs
    rw [moDetailLoop] at h
    split at h
    · injection h with h1 h2
      exact nomatch h1
    · rename_i s1 lg1 hstep
      split at h
      · injection h with h1 h2
        exact nomatch h1
      · rename_i e2 more lg2 hloop
        injection h with h1 h2
        injection h1 with h1
        subst h1
        rcases List.mem_append.mp hs with h4 | h4
        · exact moDetailStep_inv db row s1 lg1 hstep s h4
        · exact ih more lg2 hloop s h4

/-- Auxiliary: a successful birth/death-consistency body yields an
invariant-respecting result. -/
theorem bdBody_inv (db : DB) (r : CheckResult) (lg : List String)
    (h : bdBody db = (.ok r, lg)) : CheckInv r := by
  unfold bdBody at h
  split at h
  · simp at h
  · rename_i result hq1
    split at h
    · simp at h
    · rename_i oar hq2
      split at h
      · simp at h
      · rename_i vod hv
        injection h with h1 h2
        injection h1 with h1
        subst h1
        exact ⟨resultInv_noError _ _ _ _, subInv_plainRows _⟩

/-- Auxiliary: the birth/death-consistency check respects the invariant. -/
theorem checkInv_birthDeathConsistency (db : DB) :
    CheckInv (checkBirthDeathConsistency db).1 := by
  unfold checkBirthDeathConsistency
  split
  · rename_i r lg hb
    exact bdBody_inv db r lg hb
  · exact ⟨resultInv_err _ _ _ _, fun s hs => absurd hs (List.not_mem_nil s)⟩

/-- Auxiliary: a successful events-after-death body yields an
invariant-respecting result. -/
theorem eadBody_inv (db : DB) (r : CheckResult) (lg : List String)
    (h : eadBody db = (.ok r, lg)) : CheckInv r := by
  unfold eadBody at h
  split at h
  · simp at h
  · rename_i F hqeq
    split at h
    · injection h with h1 h2
      injection h1 with h1
      subst h1
      exact ⟨resultInv_noError _ _ _ _, fun s hs => absurd hs (List.not_mem_nil s)⟩
    · cases hf : filterGt "events_after_death" F with
      | error e => rw [hf, exBind_error] at h; simp at h
      | ok F2 =>
        rw [hf, exBind_ok] at h
        by_cases hF2 : F2.isEmpty
        · rw [if_pos hF2, exPure] at h
          injection h with h1 h2
          injection h1 with h1
          subst h1
          exact ⟨resultInv_noError _ _ _ _, fun s hs => absurd hs (List.not_mem_nil s)⟩
        · rw [if_neg hF2] at h
          cases hsc : sumCol "events_after_death" F2 with
          | error e => rw [hsc, exBind_error] at h; simp at h
          | ok t =>
            rw [hsc, exBind_ok] at h
            cases hsubs : eadSubs F2 with
            | error e => rw [hsubs, exBind_error] at h; simp at h
            | ok subs =>
              rw [hsubs, exBind_ok, exPure] at h
              injection h with h1 h2
              injection h1 with h1
              subst h1
              exact ⟨resultInv_noError _ _ _ _,
                fun s hs => eadSubs_inv F2 subs hsubs s hs⟩

/-- Auxiliary: the events-after-death check respects the invariant. -/
theorem checkInv_eventsAfterDeath (db : DB) :
    CheckInv (checkEventsAfterDeath db).1 := by
  unfold checkEventsAfterDeath
  split
  · rename_i r lg hb
    exact eadBody_inv db r lg hb
  · exact ⟨resultInv_err _ _ _ _, fun s hs => absurd hs (List.not_mem_nil s)⟩

/-- Auxiliary: a successful visit-date-consistency body yields an
invariant-respecting result. -/
theorem vdcBody_inv (db : DB) (r : CheckResult) (lg : List String)
    (h : vdcBody db = (.ok r, lg)) : CheckInv r := by
  unfold vdcBody at h
  split at h
  · simp at h
  · injection h with h1 h2
    injection h1 with h1
    subst h1
    exact ⟨resultInv_noError _ _ _ _, fun s hs => absurd hs (List.not_mem_nil s)⟩
  · rename_i row tail hq
    split at h
    · simp at h
    · rename_i tv ebs vlv nd ad htup
      injection h with h1 h2
      injection h1 with h1
      subst h1
      refine ⟨resultInv_noError _ _ _ _, ?_⟩
      intro s hs
      simp only [List.mem_singleton] at hs
      subst hs
      exact subInv_noError _ _

/-- Auxiliary: the visit-date-consistency check respects the invariant. -/
theorem checkInv_visitDateConsistency (db : DB) :
    CheckInv (checkVisitDateConsistency db).1 := by
  unfold checkVisitDateConsistency
  split
  · rename_i r lg hb
    exact vdcBody_inv db r lg hb
  · exact ⟨resultInv_err _ _ _ _, fun s hs => absurd hs (List.not_mem_nil s)⟩

/-- Auxiliary: a successful age-temporal body yields an
invariant-respecting result. -/
theorem atBody_inv (db : DB) (r : CheckResult) (lg : List String)
    (h : atBody db = (.ok r, lg)) : CheckInv r := by
  unfold atBody at h
  split at h
  · simp at h
  · rename_i F hqeq
    split at h
    · injection h with h1 h2
      injection h1 with h1
      subst h1
      exact ⟨resultInv_noError _ _ _ _, fun s hs => absurd hs (List.not_mem_nil s)⟩
    · cases hf : filterGt "issue_count" F with
      | error e => rw [hf, exBind_error] at h; simp at h
      | ok F2 =>
        rw [hf, exBind_ok] at h
        by_cases hF2 : F2.isEmpty
        · rw [if_pos hF2, exPure] at h
          injection h with h1 h2
          injection h1 with h1
          subst h1
          exact ⟨resultInv_noError _ _ _ _, fun s hs => absurd hs (List.not_mem_nil s)⟩
        · rw [if_neg hF2] at h
          cases hsc : sumCol "issue_count" F2 with
          | error e => rw [hsc, exBind_error] at h; simp at h
          | ok t =>
            rw [hsc, exBind_ok] at h
            cases hsubs : atSubs F2 with
            | error e => rw [hsubs, exBind_error] at h; simp at h
            | ok subs =>
              rw [hsubs, exBind_ok, exPure] at h
              injection h with h1 h2
              injection h1 with h1
              subst h1
              exact ⟨resultInv_noError _ _ _ _,
                fun s hs => atSubs_inv F2 subs hsubs s hs⟩

/-- Auxiliary: the age-temporal check respects the invariant. -/
theorem checkInv_ageTemporalIssues (db : DB) :
    CheckInv (checkAgeTemporalIssues db).1 := by
  unfold checkAgeTemporalIssues
  split
  · rename_i r lg hb
    exact atBody_inv db r lg hb
  · exact ⟨resultInv_err _ _ _ _, fun s hs => absurd hs (List.not_mem_nil s)⟩

/-- Auxiliary: the standard-concept-usage check respects the invariant. -/
theorem checkInv_standardConceptUsage (db : DB) :
    CheckInv (checkStandardConceptUsage db).1 := by
  unfold checkStandardConceptUsage
  split
  · exact ⟨resultInv_err _ _ _ _, fun s hs => absurd hs (List.not_mem_nil s)⟩
  · split
    · exact ⟨resultInv_noError _ _ _ _, fun s hs => absurd hs (List.not_mem_nil s)⟩
    · split
      · exact ⟨resultInv_err _ _ _ _, fun s hs => absurd hs (List.not_mem_nil s)⟩
      · exact ⟨resultInv_noError _ _ _ _, subInv_plainRows _⟩

/-- Auxiliary: the vocabulary-coverage check respects the invariant. -/
theorem checkInv_vocabularyCoverage (db : DB) :
    CheckInv (checkVocabularyCoverage db).1 := by
  unfold checkVocabularyCoverage
  split
  · exact ⟨resultInv_err _ _ _ _, fun s hs => absurd hs (List.not_mem_nil s)⟩
  · split
    · exact ⟨resultInv_noError _ _ _ _, fun s hs => absurd hs (List.not_mem_nil s)⟩
    · exact ⟨resultInv_noError _ _ _ _, subInv_plainRows _⟩

/-- Auxiliary: the domain-integrity check respects the invariant. -/
theorem checkInv_domainIntegrity (db : DB) :
    CheckInv (checkDomainIntegrity db).1 := by
  refine ⟨resultInv_noError _ _ _ _, ?_⟩
  intro s hs
  exact stepLoop_inv (diStep db) (diStep_inv db) domainIntegrityChecks s hs

/-- Auxiliary: the age-outliers check respects the invariant. -/
theorem checkInv_ageOutliers (db : DB) : CheckInv (checkAgeOutliers db).1 := by
  unfold checkAgeOutliers
  split
  · exact ⟨resultInv_noError _ _ _ _, fun s hs => absurd hs (List.not_mem_nil s)⟩
  · split
    · exact checkInv_handleError _ _
    · split
      · exact ⟨resultInv_noError _ _ _ _, fun s hs => absurd hs (List.not_mem_nil s)⟩
      · split
        · exact checkInv_handleError _ _
        · refine ⟨resultInv_noError _ _ _ _, ?_⟩
          intro s hs
          rcases List.mem_append.mp hs with h1 | h1
          · exact subInv_plainRows _ s h1
          · exact subInv_issueSummary _ s h1

/-- Auxiliary: the drug-quantity-outliers check respects the invariant. -/
theorem checkInv_drugQuantityOutliers (db : DB) :
    CheckInv (checkDrugQuantityOutliers db).1 := by
  unfold checkDrugQuantityOutliers
  split
  · exact ⟨resultInv_noError _ _ _ _, fun s hs => absurd hs (List.not_mem_nil s)⟩
  · split
    · exact checkInv_handleError _ _
    · split
      · refine ⟨resultInv_noError _ _ _ _, ?_⟩
        intro s hs
        exact drugSummaryStats_inv db s hs
      · split
        · exact checkInv_handleError _ _
        · refine ⟨resultInv_noError _ _ _ _, ?_⟩
          intro s hs
          rcases List.mem_append.mp hs with h1 | h1
          · rcases List.mem_append.mp h1 with h2 | h2
            · exact subInv_plainRows _ s h2
            · exact subInv_issueSummary _ s h2
          · exact drugSummaryStats_inv db s h1

/-- Auxiliary: the measurement-outliers check respects the invariant. -/
theorem checkInv_measurementOutliers (db : DB) :
    CheckInv (checkMeasurementOutliers db).1 := by
  unfold checkMeasurementOutliers
  split
  · exact ⟨resultInv_noError _ _ _ _, fun s hs => absurd hs (List.not_mem_nil s)⟩
  · split
    · exact checkInv_handleError _ _
    · split
      · exact ⟨resultInv_noError _ _ _ _, fun s hs => absurd hs (List.not_mem_nil s)⟩
      · split
        · exact checkInv_handleError _ _
        · rename_i details lg hloop
          refine ⟨resultInv_noError _ _ _ _, ?_⟩
          intro s hs
          rcases List.mem_append.mp hs with h1 | h1
          · exact subInv_plainRows _ s h1
          · exact moDetailLoop_inv db _ details lg hloop s h1

/-- Auxiliary: the visit-duration-outliers check respects the invariant. -/
theorem checkInv_visitDurationOutliers (db : DB) :
    CheckInv (checkVisitDurationOutliers db).1 := by
  unfold checkVisitDurationOutliers
  split
  · exact ⟨resultInv_noError _ _ _ _, fun s hs => absurd hs (List.not_mem_nil s)⟩
  · split
    · exact checkInv_handleError _ _
    · split
      · exact ⟨resultInv_noError _ _ _ _, fun s hs => absurd hs (List.not_mem_nil s)⟩
      · split
        · exact checkInv_handleError _ _
        · split
          · exact checkInv_handleError _ _
          · refine ⟨resultInv_noError _ _ _ _, ?_⟩
            intro s hs
            rcases List.mem_append.mp hs with h1 | h1
            · exact subInv_plainRows _ s h1
            · exact visitDurationDetails_inv db s h1

/-- Auxiliary: the gender block emits only invariant-respecting records. -/
theorem genderBlock_inv (db : DB) : ∀ s ∈ (genderBlock db).1, SubInv s := by
  intro s hs
  unfold genderBlock at hs
  repeat' split at hs
  all_goals first
    | exact absurd hs (List.not_mem_nil s)
    | exact subInv_plainRows _ s hs

/-- Auxiliary: the age block emits only invariant-respecting records. -/
theorem ageBlock_inv (db : DB) : ∀ s ∈ (ageBlock db).1, SubInv s := by
  intro s hs
  unfold ageBlock at hs
  repeat' split at hs
  all_goals first
    | exact absurd hs (List.not_mem_nil s)
    | exact subInv_plainRows _ s hs

/-- Auxiliary: the density block emits only invariant-respecting records. -/
theorem densityBlock_inv (db : DB) : ∀ s ∈ (densityBlock db).1, SubInv s := by
  intro s hs
  unfold densityBlock at hs
  repeat' split at hs
  all_goals first
    | exact absurd hs (List.not_mem_nil s)
    | exact subInv_plainRows _ s hs

/-- Auxiliary: the duplicates block emits only invariant-respecting
records. -/
theorem duplicatesBlock_inv (db : DB) :
    ∀ s ∈ (duplicatesBlock db).1, SubInv s := by
  intro s hs
  unfold duplicatesBlock at hs
  repeat' split at hs
  all_goals first
    | exact absurd hs (List.not_mem_nil s)
    | (simp only [List.mem_singleton] at hs; subst hs; exact subInv_noError _ _)

/-- Auxiliary: the distribution-anomalies check respects the invariant. -/
theorem checkInv_distributionAnomalies (db : DB) :
    CheckInv (checkDistributionAnomalies db).1 := by
  refine ⟨resultInv_noError _ _ _ _, ?_⟩
  intro s hs
  have hs2 : s ∈ (genderBlock db).1 ++ (ageBlock db).1 ++ (densityBlock db).1 ++
      (duplicatesBlock db).1 := hs
  rcases List.mem_append.mp hs2 with h1 | h1
  · rcases List.mem_append.mp h1 with h2 | h2
    · rcases List.mem_append.mp h2 with h3 | h3
      · exact genderBlock_inv db s h3
      · exact ageBlock_inv db s h3
    · exact densityBlock_inv db s h2
  · exact duplicatesBlock_inv db s h1

/-- C9: every check result produced by any check of the five registered
checkers — all four completeness checks, all five temporal checks, all
four concept-mapping checks, all five referential checks and all five
statistical checks — and every sub-record carried in its data satisfies
the invariant: a set error field forces status ERROR, and a PASS status
forces the error field to be unset. -/
theorem c9_error_status_invariant (db : DB) :
    CheckInv (checkTableCompleteness db).1 ∧
    CheckInv (checkCriticalFields db).1 ∧
    CheckInv (checkPersonCompleteness db).1 ∧
    CheckInv (checkDomainCompleteness db).1 ∧
    CheckInv (checkFutureDates db).1 ∧
    CheckInv (checkBirthDeathConsistency db).1 ∧
    CheckInv (checkEventsAfterDeath db).1 ∧
    CheckInv (checkVisitDateConsistency db).1 ∧
    CheckInv (checkAgeTemporalIssues db).1 ∧
    CheckInv (checkUnmappedConcepts db).1 ∧
    CheckInv (checkStandardConceptUsage db).1 ∧
    CheckInv (checkVocabularyCoverage db).1 ∧
    CheckInv (checkDomainIntegrity db).1 ∧
    CheckInv (checkForeignKeyViolations db).1 ∧
    CheckInv (checkOrphanedRecords db).1 ∧
    CheckInv (checkPersonIdConsistency db).1 ∧
    CheckInv (checkVisitRelationships db).1 ∧
    CheckInv (checkConceptIntegrity db).1 ∧
    CheckInv (checkAgeOutliers db).1 ∧
    CheckInv (checkDrugQuantityOutliers db).1 ∧
    CheckInv (checkMeasurementOutliers db).1 ∧
    CheckInv (checkVisitDurationOutliers db).1 ∧
    CheckInv (checkDistributionAnomalies db).1 :=
  ⟨checkInv_tableCompleteness db, checkInv_criticalFields db,
   checkInv_personCompleteness db, checkInv_domainCompleteness db,
   checkInv_futureDates db, checkInv_birthDeathConsistency db,
   checkInv_eventsAfterDeath db, checkInv_visitDateConsistency db,
   checkInv_ageTemporalIssues db, checkInv_unmappedConcepts db,
   checkInv_standardConceptUsage db, checkInv_vocabularyCoverage db,
   checkInv_domainIntegrity db, checkInv_fkViolations db,
   checkInv_orphanedRecords db, checkInv_personIdConsistency db,
   checkInv_visitRelationships db, checkInv_conceptIntegrity db,
   checkInv_ageOutliers db, checkInv_drugQuantityOutliers db,
   checkInv_measurementOutliers db, checkInv_visitDurationOutliers db,
   checkInv_distributionAnomalies db⟩
